import Mathlib

/-!
Verification of the plox tree-walking Lox interpreter
(`src/plox/_token.py`, `src/plox/plox/_scanner.py`, `src/plox/plox/_parser.py`,
`src/plox/plox/_resolver.py`, `src/plox/_expr.py`, `src/plox/plox/_stmt.py`,
`src/plox/_environment.py`, `src/plox/plox/_callable.py`,
`src/plox/plox/_errors.py`, `src/plox/plox/_interpreter.py`,
`src/plox/plox/lox.py`).

The Python code is embedded shallowly: mutable interpreter state (the
environment heap, instance heap, resolver side table and produced output)
becomes explicit state passing, Python exceptions become an `Except` channel
whose constructors mirror the exception classes that the code distinguishes
(`LoxRuntimeError`, `FakeReturnError`, and uncaught plain Python exceptions),
and unbounded recursion and loops take a fuel argument.  Lox numbers are
`double` in the source; no property checked here depends on rounding, so they
are modelled as exact rationals.
-/

/-! ## Tokens (`src/plox/_token.py`) -/

/-- `TokenType` enumeration; every variant's Python `value` is its lexeme
string, see `tokenTypeOfString`. -/
inductive TokenType where
  | LEFT_PAREN | RIGHT_PAREN | LEFT_BRACE | RIGHT_BRACE | COMMA | DOT
  | MINUS | PLUS | SEMICOLON | SLASH | STAR
  | BANG | BANG_EQUAL | EQUAL | EQUAL_EQUAL
  | GREATER | GREATER_EQUAL | LESS | LESS_EQUAL
  | AND | CLASS | ELSE | FALSE | FUN | FOR | IF | NIL | OR | PRINT
  | RETURN | SUPER | THIS | TRUE | VAR | WHILE
  | IDENTIFIER | STRING | NUMBER | EOF
deriving DecidableEq, Repr

/-- The Python payload of `Token.literal`: a `float` for numbers, a `str` for
strings, `None` otherwise.  Floats are modelled as rationals. -/
inductive PyLit where
  | num (q : Rat)
  | str (s : String)
deriving DecidableEq, Repr

structure Token where
  type : TokenType
  lexeme : String
  literal : Option PyLit
  line : Nat
deriving DecidableEq, Repr

/-- The (value, variant) table of the `TokenType` enum: `TokenType(s)` in
Python looks a lexeme string up by enum value (this is how the scanner maps
keywords). -/
def tokenTypeValueTable : List (String × TokenType) :=
  [("(", .LEFT_PAREN), (")", .RIGHT_PAREN), ("\x7b", .LEFT_BRACE),
   ("\x7d", .RIGHT_BRACE), (",", .COMMA), (".", .DOT), ("-", .MINUS),
   ("+", .PLUS), (";", .SEMICOLON), ("/", .SLASH), ("*", .STAR),
   ("!", .BANG), ("!=", .BANG_EQUAL), ("=", .EQUAL), ("==", .EQUAL_EQUAL),
   (">", .GREATER), (">=", .GREATER_EQUAL), ("<", .LESS), ("<=", .LESS_EQUAL),
   ("and", .AND), ("class", .CLASS), ("else", .ELSE), ("false", .FALSE),
   ("fun", .FUN), ("for", .FOR), ("if", .IF), ("nil", .NIL), ("or", .OR),
   ("print", .PRINT), ("return", .RETURN), ("super", .SUPER), ("this", .THIS),
   ("true", .TRUE), ("var", .VAR), ("while", .WHILE),
   ("identifier", .IDENTIFIER), ("string", .STRING), ("number", .NUMBER),
   ("eof", .EOF)]

/-- `TokenType(s)`: `some` variant when `s` is an enum value, otherwise the
Python call raises `ValueError` (`none`). -/
def tokenTypeOfString (s : String) : Option TokenType :=
  (tokenTypeValueTable.find? (fun p => p.1 = s)).map (·.2)

/-! ## Scanner (`src/plox/plox/_scanner.py`; `src/plox/_scanner.py` has the
same `Scanner` class line for line on every path modelled here) -/

/-- `c in DIGITS` with `DIGITS = frozenset(string.digits)`. -/
def isDigitC (c : Char) : Bool := '0' ≤ c && c ≤ '9'

/-- `c in LETTERS` with `LETTERS = frozenset(string.ascii_letters + "_")`. -/
def isAlphaC (c : Char) : Bool :=
  ('a' ≤ c && c ≤ 'z') || ('A' ≤ c && c ≤ 'Z') || c = '_'

def isAlphaNumericC (c : Char) : Bool := isDigitC c || isAlphaC c

/-- Mutable scanner fields (`start`, `current`, `line`, `tokens`), plus the
`(line, message)` pairs reported through `Lox.error` (each report sets the
global `had_error` flag). -/
structure ScanSt where
  start : Nat
  current : Nat
  line : Nat
  tokens : List Token
  errors : List (Nat × String)
deriving Repr

/-- `source[i]` for an in-bounds index (all `Scanner` reads are guarded by
`isAtEnd`/`peek` checks). -/
def charAt (src : List Char) (i : Nat) : Char := src.getD i '\x00'

/-- `self.source[a:b]` on an in-bounds slice. -/
def sliceStr (src : List Char) (a b : Nat) : String :=
  String.mk ((src.drop a).take (b - a))

def scanIsAtEnd (src : List Char) (st : ScanSt) : Bool := src.length ≤ st.current

/-- `Scanner.advance`. -/
def scanAdvance (src : List Char) (st : ScanSt) : Char × ScanSt :=
  (charAt src st.current, { st with current := st.current + 1 })

/-- `Scanner.match`. -/
def scanMatch (src : List Char) (expected : Char) (st : ScanSt) : Bool × ScanSt :=
  if scanIsAtEnd src st then (false, st)
  else if charAt src st.current ≠ expected then (false, st)
  else (true, { st with current := st.current + 1 })

/-- `Scanner.peek`. -/
def scanPeek (src : List Char) (st : ScanSt) : Char :=
  if scanIsAtEnd src st then '\x00' else charAt src st.current

/-- `Scanner.peek_next`. -/
def scanPeekNext (src : List Char) (st : ScanSt) : Char :=
  if src.length ≤ st.current + 1 then '\x00' else charAt src (st.current + 1)

/-- `Scanner.add_token`. -/
def scanAddToken (src : List Char) (t : TokenType) (lit : Option PyLit)
    (st : ScanSt) : ScanSt :=
  { st with tokens :=
      st.tokens ++ [⟨t, sliceStr src st.start st.current, lit, st.line⟩] }

/-- Digit list to the natural number it denotes. -/
def natOfDigits (l : List Char) : Nat :=
  l.foldl (fun a c => 10 * a + (c.toNat - 48)) 0

/-- `float(lexeme)` for a lexeme matching `DIGIT+ ( '.' DIGIT+ )?` (the only
shape `Scanner.number` produces); exact because such decimals are dyadic-free
rationals. -/
def ratOfNumberLexeme (s : String) : Rat :=
  match s.splitOn "." with
  | [w] => (natOfDigits w.toList : Rat)
  | [w, f] =>
      (natOfDigits w.toList : Rat) +
        (natOfDigits f.toList : Rat) / ((10 : Rat) ^ f.length)
  | _ => 0

/-- The loop in `Scanner.identifier`. -/
def scanIdentLoop (src : List Char) : Nat → ScanSt → ScanSt
  | 0, st => st
  | fuel + 1, st =>
      if isAlphaNumericC (scanPeek src st) then
        scanIdentLoop src fuel { st with current := st.current + 1 }
      else st

/-- `Scanner.identifier`: keywords are recognised by the `TokenType(source)`
enum-value lookup, `ValueError` falls back to `IDENTIFIER`. -/
def scanIdentifier (src : List Char) (st : ScanSt) : ScanSt :=
  let st := scanIdentLoop src (src.length + 1) st
  let text := sliceStr src st.start st.current
  let t := match tokenTypeOfString text with
    | some tt => tt
    | none => TokenType.IDENTIFIER
  scanAddToken src t none st

/-- The loop in `Scanner.string` (newlines advance the line counter). -/
def scanStringLoop (src : List Char) : Nat → ScanSt → ScanSt
  | 0, st => st
  | fuel + 1, st =>
      if scanPeek src st ≠ '"' && !scanIsAtEnd src st then
        let st := if scanPeek src st = '\n' then { st with line := st.line + 1 } else st
        scanStringLoop src fuel { st with current := st.current + 1 }
      else st

/-- `Scanner.string`. -/
def scanString (src : List Char) (st : ScanSt) : ScanSt :=
  let st := scanStringLoop src (src.length + 1) st
  if scanIsAtEnd src st then
    { st with errors := st.errors ++ [(st.line, "Unterminated string")] }
  else
    let st := { st with current := st.current + 1 }
    let value := sliceStr src (st.start + 1) (st.current - 1)
    scanAddToken src TokenType.STRING (some (PyLit.str value)) st

/-- The integer-part / fraction-part loops in `Scanner.number`. -/
def scanDigitsLoop (src : List Char) : Nat → ScanSt → ScanSt
  | 0, st => st
  | fuel + 1, st =>
      if isDigitC (scanPeek src st) then
        scanDigitsLoop src fuel { st with current := st.current + 1 }
      else st

/-- `Scanner.number`: a `.` is consumed only when followed by a digit, so
`123.` leaves the dot for the next `scan_token` round. -/
def scanNumber (src : List Char) (st : ScanSt) : ScanSt :=
  let st := scanDigitsLoop src (src.length + 1) st
  let st :=
    if scanPeek src st = '.' && isDigitC (scanPeekNext src st) then
      scanDigitsLoop src (src.length + 1) { st with current := st.current + 1 }
    else st
  scanAddToken src TokenType.NUMBER
    (some (PyLit.num (ratOfNumberLexeme (sliceStr src st.start st.current)))) st

/-- The `//` line-comment loop in `Scanner.scan_token`'s `/` case: consume up
to, not including, the newline.  There is no `/*` block-comment case in
either scanner file. -/
def scanLineCommentLoop (src : List Char) : Nat → ScanSt → ScanSt
  | 0, st => st
  | fuel + 1, st =>
      if scanPeek src st ≠ '\n' && !scanIsAtEnd src st then
        scanLineCommentLoop src fuel { st with current := st.current + 1 }
      else st

/-- `Scanner.scan_token`. -/
def scanToken (src : List Char) (st : ScanSt) : ScanSt :=
  let (c, st) := scanAdvance src st
  match c with
  | '(' => scanAddToken src .LEFT_PAREN none st
  | ')' => scanAddToken src .RIGHT_PAREN none st
  | '\x7b' => scanAddToken src .LEFT_BRACE none st
  | '\x7d' => scanAddToken src .RIGHT_BRACE none st
  | ',' => scanAddToken src .COMMA none st
  | '.' => scanAddToken src .DOT none st
  | '-' => scanAddToken src .MINUS none st
  | '+' => scanAddToken src .PLUS none st
  | ';' => scanAddToken src .SEMICOLON none st
  | '*' => scanAddToken src .STAR none st
  | '!' =>
      let (m, st) := scanMatch src '=' st
      scanAddToken src (if m then .BANG_EQUAL else .BANG) none st
  | '=' =>
      let (m, st) := scanMatch src '=' st
      scanAddToken src (if m then .EQUAL_EQUAL else .EQUAL) none st
  | '<' =>
      let (m, st) := scanMatch src '=' st
      scanAddToken src (if m then .LESS_EQUAL else .LESS) none st
  | '>' =>
      let (m, st) := scanMatch src '=' st
      scanAddToken src (if m then .GREATER_EQUAL else .GREATER) none st
  | '/' =>
      let (m, st) := scanMatch src '/' st
      if m then scanLineCommentLoop src (src.length + 1) st
      else scanAddToken src .SLASH none st
  | ' ' => st
  | '\r' => st
  | '\t' => st
  | '\n' => { st with line := st.line + 1 }
  | '"' => scanString src st
  | c =>
      if isDigitC c then scanNumber src st
      else if isAlphaC c then scanIdentifier src st
      else
        { st with errors := st.errors ++
            [(st.line, "Unexpected character: " ++ String.mk [charAt src (st.current - 1)])] }

/-- The `while not self.isAtEnd()` loop of `Scanner.scan_tokens`. -/
def scanLoop (src : List Char) : Nat → ScanSt → ScanSt
  | 0, st => st
  | fuel + 1, st =>
      if scanIsAtEnd src st then st
      else scanLoop src fuel (scanToken src { st with start := st.current })

/-- `Scanner.scan_tokens`: scan to the end, then append the `EOF` token. -/
def scanTokens (source : String) : ScanSt :=
  let src := source.toList
  let st := scanLoop src (src.length + 1)
    { start := 0, current := 0, line := 1, tokens := [], errors := [] }
  { st with tokens := st.tokens ++ [⟨TokenType.EOF, "", none, st.line⟩] }

/-! ## AST (`src/plox/_expr.py`, `src/plox/plox/_stmt.py`)

Each expression node carries an `id : Nat` modelling Python object identity:
the interpreter's `locals` side table (`dict[Expr, int]`) hashes AST nodes by
identity, so the parser below hands every freshly constructed node a fresh
id, exactly as every Python constructor call yields a fresh object. -/

/-- The parse-time payloads of `Literal` nodes (`None`, `True`, `False`,
a number, or a string — the shapes `Parser.primary` constructs). -/
inductive LitVal where
  | nil
  | bool (b : Bool)
  | num (q : Rat)
  | str (s : String)
deriving DecidableEq, Repr

inductive Expr where
  | binary (id : Nat) (left : Expr) (operator : Token) (right : Expr)
  | grouping (id : Nat) (expression : Expr)
  | literal (id : Nat) (value : LitVal)
  | unary (id : Nat) (operator : Token) (right : Expr)
  | variable (id : Nat) (name : Token)
  | assign (id : Nat) (name : Token) (value : Expr)
  | logical (id : Nat) (left : Expr) (operator : Token) (right : Expr)
  | call (id : Nat) (callee : Expr) (paren : Token) (arguments : List Expr)
  | get (id : Nat) (object : Expr) (name : Token)
  | set (id : Nat) (object : Expr) (name : Token) (value : Expr)
  | this (id : Nat) (keyword : Token)
  | super (id : Nat) (keyword : Token) (method : Token)
deriving Repr

/-- The node's identity, the key used by the `locals` side table. -/
def Expr.exprId : Expr → Nat
  | .binary i .. => i
  | .grouping i .. => i
  | .literal i .. => i
  | .unary i .. => i
  | .variable i .. => i
  | .assign i .. => i
  | .logical i .. => i
  | .call i .. => i
  | .get i .. => i
  | .set i .. => i
  | .this i .. => i
  | .super i .. => i

inductive Stmt where
  | print (expression : Expr)
  | expression (expression : Expr)
  | var (name : Token) (initializer : Option Expr)
  | block (statements : List Stmt)
  | ifStmt (condition : Expr) (thenBranch : Stmt) (elseBranch : Option Stmt)
  | whileStmt (condition : Expr) (body : Stmt)
  | function (name : Token) (params : List Token) (body : List Stmt)
  | ret (keyword : Token) (value : Option Expr)
  | classDecl (name : Token) (superclass : Option Expr) (methods : List Stmt)
deriving Repr

/-! Note: `Stmt.classDecl`'s `superclass` is always a `Expr.variable` node,
and its `methods` entries are always `Stmt.function` nodes, mirroring the
types `Parser.class_declaration` produces. -/

/-! ## Runtime values and interpreter state
(`src/plox/plox/_callable.py`, `src/plox/_environment.py`,
`src/plox/plox/_interpreter.py`) -/

abbrev EnvId := Nat
abbrev InstId := Nat

/-- The fields of a runtime `LoxFunction`: the `Function` statement's pieces
(`declaration`), the captured environment (`closure`) and `is_initializer`. -/
structure FunData where
  name : Token
  params : List Token
  body : List Stmt
  closure : EnvId
  isInitializer : Bool
deriving Repr

/-- A runtime `LoxClass`: name, optional superclass, and the `methods`
dictionary. -/
inductive LoxClass where
  | mk (name : String) (superclass : Option LoxClass)
      (methods : List (String × FunData))
deriving Repr

def LoxClass.name : LoxClass → String
  | .mk n _ _ => n

def LoxClass.superclass : LoxClass → Option LoxClass
  | .mk _ s _ => s

def LoxClass.methods : LoxClass → List (String × FunData)
  | .mk _ _ m => m

/-- Dynamically typed Lox runtime values: `None`, `bool`, `float`, `str`,
the `Clock` native, `LoxFunction`, `LoxClass` and `LoxInstance` (instances
live on a heap because their field dictionaries are mutable and shared). -/
inductive Value where
  | nil
  | bool (b : Bool)
  | num (q : Rat)
  | str (s : String)
  | clock
  | func (f : FunData)
  | cls (c : LoxClass)
  | inst (i : InstId)
deriving Repr

/-- One Python `Environment` object: its `values` dict (insertion-ordered,
updated in place) and `enclosing` reference. -/
structure EnvData where
  values : List (String × Value)
  enclosing : Option EnvId
deriving Repr

/-- One `LoxInstance` object: its class and mutable `fields` dict. -/
structure InstData where
  klass : LoxClass
  fields : List (String × Value)
deriving Repr

/-- The exceptions the Python code distinguishes.  `loxRuntime` is
`LoxRuntimeError` (caught by `Interpreter.interpret`), `fakeReturn` is
`FakeReturnError` (caught by `LoxFunction.call`), `pyExc kind msg` is any
other Python exception (plain `RuntimeError`, `NameError`, `TypeError`, …),
which nothing in the program catches.  `outOfFuel` is the embedding's
artefact for exhausted fuel. -/
inductive Exc where
  | loxRuntime (tok : Option Token) (msg : String)
  | fakeReturn (v : Value)
  | pyExc (kind : String) (msg : String)
  | outOfFuel
deriving Repr

/-- The mutable state of the module-global `interpreter` (which both the
resolver and every `evaluate` method import), plus the lines printed so far.
`envs` is the environment heap; the root `globals` environment is id `0`. -/
structure St where
  envs : List EnvData
  insts : List InstData
  environment : EnvId
  locals : List (Nat × Nat)
  output : List String
deriving Repr

/-- The state after `Interpreter.__init__`: a `globals` environment holding
only `clock`, `environment = globals`, an empty side table. -/
def initSt : St :=
  { envs := [⟨[("clock", Value.clock)], none⟩]
    insts := []
    environment := 0
    locals := []
    output := [] }

/-- Python dict write `d[k] = v`: replace in place, else append. -/
def dictSet {α : Type} (m : List (String × α)) (k : String) (v : α) :
    List (String × α) :=
  match m with
  | [] => [(k, v)]
  | (k', v') :: rest =>
      if k' = k then (k, v) :: rest else (k', v') :: dictSet rest k v

/-- Python dict read `d.get(k)` / `k in d`. -/
def dictGet {α : Type} (m : List (String × α)) (k : String) : Option α :=
  (m.find? (fun p => p.1 = k)).map (·.2)

/-- Replace the heap cell at index `i`. -/
def listSet {α : Type} : List α → Nat → α → List α
  | [], _, _ => []
  | _ :: rest, 0, a => a :: rest
  | x :: rest, i + 1, a => x :: listSet rest i a

/-- The heap cell of environment `e` (all ids produced by the interpreter are
in range; the default is never read on a reachable state). -/
def envOf (s : St) (e : EnvId) : EnvData := s.envs.getD e ⟨[], none⟩

/-- `Environment.define`: unconditionally set `name → v` in this environment. -/
def envDefine (s : St) (e : EnvId) (name : String) (v : Value) : St :=
  let cell := envOf s e
  let cell' := { cell with values := dictSet cell.values name v }
  { s with envs := listSet s.envs e cell' }

/-- Allocate a fresh `Environment(enclosing)` object; its id is the new heap
index. -/
def envAlloc (s : St) (enclosing : Option EnvId) : EnvId × St :=
  (s.envs.length, { s with envs := s.envs ++ [⟨[], enclosing⟩] })

/-- The loop of `Environment.ancestor`: step to `enclosing` exactly
`distance` times, checking for `None` before each step, then a final `None`
check.  Both checks raise a plain `RuntimeError`, not a `LoxRuntimeError`. -/
def envAncestor (s : St) : Nat → Option EnvId → Except Exc EnvId
  | 0, none => Except.error (Exc.pyExc "RuntimeError" "Environment is nil")
  | 0, some e => Except.ok e
  | _ + 1, none =>
      Except.error (Exc.pyExc "RuntimeError" "Enclosing environment is nil")
  | d + 1, some e => envAncestor s d (envOf s e).enclosing

/-- `Environment.get_at`: read `ancestor(d)`'s dict with `.get`, so an absent
name yields Python `None`, i.e. Lox `nil` — no recursion, no error. -/
def envGetAt (s : St) (e : EnvId) (d : Nat) (name : String) : Except Exc Value :=
  match envAncestor s d (some e) with
  | Except.error ex => Except.error ex
  | Except.ok a =>
      Except.ok (match dictGet (envOf s a).values name with
        | some v => v
        | none => Value.nil)

/-- `Environment.assign_at`: write directly into `ancestor(d)`'s dict. -/
def envAssignAt (s : St) (e : EnvId) (d : Nat) (name : Token) (v : Value) :
    Except Exc St :=
  match envAncestor s d (some e) with
  | Except.error ex => Except.error ex
  | Except.ok a =>
      let cell := envOf s a
      let cell' := { cell with values := dictSet cell.values name.lexeme v }
      Except.ok { s with envs := listSet s.envs a cell' }

/-- `Environment.get`: look here, else recurse outward, else
`LoxRuntimeError "Undefined variable: 'name'."`.  The fuel bounds the chain
length (chains built by the interpreter are acyclic and at most heap-long). -/
def envGet (s : St) : Nat → EnvId → Token → Except Exc Value
  | 0, _, _ => Except.error Exc.outOfFuel
  | fuel + 1, e, name =>
      match dictGet (envOf s e).values name.lexeme with
      | some v => Except.ok v
      | none =>
          match (envOf s e).enclosing with
          | some enc => envGet s fuel enc name
          | none =>
              Except.error (Exc.loxRuntime (some name)
                ("Undefined variable: '" ++ name.lexeme ++ "'."))

/-- `Environment.assign`: update here if present, else recurse outward, else
`LoxRuntimeError "Undefined variable: name."` (no quotes in this message in
the source). -/
def envAssign (s : St) : Nat → EnvId → Token → Value → Except Exc St
  | 0, _, _, _ => Except.error Exc.outOfFuel
  | fuel + 1, e, name, v =>
      match dictGet (envOf s e).values name.lexeme with
      | some _ =>
          let cell := envOf s e
          let cell' := { cell with values := dictSet cell.values name.lexeme v }
          Except.ok { s with envs := listSet s.envs e cell' }
      | none =>
          match (envOf s e).enclosing with
          | some enc => envAssign s fuel enc name v
          | none =>
              Except.error (Exc.loxRuntime (some name)
                ("Undefined variable: " ++ name.lexeme ++ "."))

/-! ## Python string conversions used in messages and by `print`
(`src/plox/plox/_errors.py` and the `__repr__` methods) -/

/-- Left-pad a digit string with zeros to width `k`. -/
def padLeftZeros (s : String) (k : Nat) : String :=
  String.mk (List.replicate (k - s.length) '0') ++ s

/-- `str(x)` for a Python float.  Exact for terminating decimals (every
number the scanner can produce); non-terminating quotients (which only
division could create, and which no theorem below prints) fall back to a
fraction rendering, a documented abstraction of Python's 17-significant-digit
repr. -/
def pyFloatStr (q : Rat) : String :=
  if q.den = 1 then toString q.num ++ ".0"
  else
    match (List.range 18).find? (fun k => (q * (10 : Rat) ^ k).den = 1) with
    | some k =>
        let n := (q * (10 : Rat) ^ k).num
        let sign := if n < 0 then "-" else ""
        let a := n.natAbs
        sign ++ toString (a / 10 ^ k) ++ "." ++
          padLeftZeros (toString (a % 10 ^ k)) k
    | none => toString q.num ++ "/" ++ toString q.den

/-- `str(TokenType.X)` as Python prints an enum member. -/
def tokenTypeName (t : TokenType) : String :=
  "TokenType." ++
    match t with
    | .LEFT_PAREN => "LEFT_PAREN" | .RIGHT_PAREN => "RIGHT_PAREN"
    | .LEFT_BRACE => "LEFT_BRACE" | .RIGHT_BRACE => "RIGHT_BRACE"
    | .COMMA => "COMMA" | .DOT => "DOT" | .MINUS => "MINUS" | .PLUS => "PLUS"
    | .SEMICOLON => "SEMICOLON" | .SLASH => "SLASH" | .STAR => "STAR"
    | .BANG => "BANG" | .BANG_EQUAL => "BANG_EQUAL" | .EQUAL => "EQUAL"
    | .EQUAL_EQUAL => "EQUAL_EQUAL" | .GREATER => "GREATER"
    | .GREATER_EQUAL => "GREATER_EQUAL" | .LESS => "LESS"
    | .LESS_EQUAL => "LESS_EQUAL" | .AND => "AND" | .CLASS => "CLASS"
    | .ELSE => "ELSE" | .FALSE => "FALSE" | .FUN => "FUN" | .FOR => "FOR"
    | .IF => "IF" | .NIL => "NIL" | .OR => "OR" | .PRINT => "PRINT"
    | .RETURN => "RETURN" | .SUPER => "SUPER" | .THIS => "THIS"
    | .TRUE => "TRUE" | .VAR => "VAR" | .WHILE => "WHILE"
    | .IDENTIFIER => "IDENTIFIER" | .STRING => "STRING" | .NUMBER => "NUMBER"
    | .EOF => "EOF"

/-- `str(literal)` as interpolated by `Token.__repr__`. -/
def pyLitStr : Option PyLit → String
  | none => "None"
  | some (PyLit.num q) => pyFloatStr q
  | some (PyLit.str s) => s

/-- `Token.__repr__`: `f"{self.type} {self.lexeme} {self.literal}"`. -/
def tokenRepr (t : Token) : String :=
  tokenTypeName t.type ++ " " ++ t.lexeme ++ " " ++ pyLitStr t.literal

/-- The class of the instance heap's default cell; never read on a state the
interpreter built. -/
def emptyClass : LoxClass := LoxClass.mk "" none []

def instOf (s : St) (i : InstId) : InstData := s.insts.getD i ⟨emptyClass, []⟩

/-- `str(v)` for a runtime value: `str(None)`, `str(bool)`, `str(float)`,
the string itself, `Clock.__repr__`, `LoxFunction.__repr__`,
`LoxClass.__repr__` (just the name), `LoxInstance.__repr__`
(`f"(instance {self._class.name})"`). -/
def pyStr (s : St) (v : Value) : String :=
  match v with
  | .nil => "None"
  | .bool b => if b then "True" else "False"
  | .num q => pyFloatStr q
  | .str t => t
  | .clock => "<native fn>"
  | .func f => "<fn " ++ f.name.lexeme ++ ">"
  | .cls c => c.name
  | .inst i => "(instance " ++ (instOf s i).klass.name ++ ")"

/-- `type(v)` as interpolated into the `Binary.evaluate` `+` error message. -/
def pyTypeStr (v : Value) : String :=
  match v with
  | .nil => "<class 'NoneType'>"
  | .bool _ => "<class 'bool'>"
  | .num _ => "<class 'float'>"
  | .str _ => "<class 'str'>"
  | .clock => "<class 'plox._callable.Clock'>"
  | .func _ => "<class 'plox._callable.LoxFunction'>"
  | .cls _ => "<class 'plox._callable.LoxClass'>"
  | .inst _ => "<class 'plox._callable.LoxInstance'>"

/-- `is_truthy` from `_errors.py`: `None` → `False`, a `bool` → itself,
everything else → `True`. -/
def is_truthy (v : Value) : Bool :=
  match v with
  | .nil => false
  | .bool b => b
  | _ => true

/-- `Logical.evaluate` calls `is_truthy(self.left)` on the AST NODE, not on
the evaluated value `left`.  An `Expr` instance is neither `None` nor a
`bool`, so `is_truthy` lands in its catch-all branch and returns `True` for
every node.  (This is the short-circuit bug; the repository's own test list
in `run-test.py` records `logical_operator/and.lox`, `or.lox`, `and_truth.lox`
and `or_truth.lox` as failed.) -/
def exprNodeIsTruthy (_e : Expr) : Bool := true

/-- `stringify` from `_errors.py`: `nil`, `true`/`false`, floats with a
trailing `".0"` stripped, `str(obj)` for everything else. -/
def stringify (s : St) (v : Value) : String :=
  match v with
  | .nil => "nil"
  | .bool b => if b then "true" else "false"
  | .num q =>
      let text := pyFloatStr q
      if text.endsWith ".0" then (text.toList.take (text.length - 2)).asString
      else text
  | v => pyStr s v

/-- `_lox_eq` from `_expr.py`: `type(left) is not type(right)` → `False`,
otherwise Python `==`.  Python `==` on `LoxFunction`/`LoxClass` objects is
object identity; the model compares function and class payloads structurally
(instances, which are heap references, compare by heap id).  No theorem
below depends on comparing two callables. -/
def lox_eq (left right : Value) : Bool :=
  match left, right with
  | .nil, .nil => true
  | .bool a, .bool b => a = b
  | .num a, .num b => a = b
  | .str a, .str b => a = b
  | .clock, .clock => true
  | .inst i, .inst j => i = j
  | .func _, .func _ => false
  | .cls _, .cls _ => false
  | _, _ => false

/-- `LoxClass.find_method`: own `methods` dict first, else recurse into the
superclass chain, else `None`. -/
def LoxClass.findMethod : LoxClass → String → Option FunData
  | .mk _ sup methods, n =>
      match dictGet methods n with
      | some f => some f
      | none =>
          match sup with
          | some c => c.findMethod n
          | none => none

/-- `isinstance(callee, LoxCallable)`: `Clock`, `LoxFunction` and `LoxClass`
subclass `LoxCallable`; nothing else does (in particular `LoxInstance` does
not). -/
def isLoxCallable (v : Value) : Bool :=
  match v with
  | .clock => true
  | .func _ => true
  | .cls _ => true
  | _ => false

/-- `Call.evaluate` line 274 compares `len(arguments) != function.arity`.
`arity` is an ordinary method on every `LoxCallable` (no `@property`), so
`function.arity` is a bound-method object, and Python's `!=` between an
`int` and a method object is always `True` (both sides' `__eq__` return
`NotImplemented` and the fallback identity comparison fails).  The argument
count and callee are taken only so the definition sits at the exact
comparison site. -/
def intNeqArityMethod (_argCount : Nat) (_callee : Value) : Bool := true

/-- `str(function.arity)` as interpolated into the arity error message: the
repr of a bound method, `<bound method C.arity of <repr of the callee>>`. -/
def arityBoundMethodRepr (s : St) (callee : Value) : String :=
  match callee with
  | .clock => "<bound method Clock.arity of " ++ pyStr s callee ++ ">"
  | .func _ => "<bound method LoxFunction.arity of " ++ pyStr s callee ++ ">"
  | .cls _ => "<bound method LoxClass.arity of " ++ pyStr s callee ++ ">"
  | _ => ""

/-- `LoxFunction.bind`: a fresh environment over the method's closure
defining `this`, and a new `LoxFunction` with the same declaration and
`is_initializer` but the new closure. -/
def bindMethod (s : St) (m : FunData) (instVal : Value) : FunData × St :=
  let (e, s₁) := envAlloc s (some m.closure)
  let s₂ := envDefine s₁ e "this" instVal
  ({ m with closure := e }, s₂)

/-- Allocate a `LoxInstance(self)` with empty `fields`. -/
def instAlloc (s : St) (c : LoxClass) : InstId × St :=
  (s.insts.length, { s with insts := s.insts ++ [⟨c, []⟩] })

/-- Bind parameters to arguments in the fresh call environment;
`zip(self.declaration.params, arguments)` stops at the shorter list. -/
def defineParams (ps : List (Token × Value)) (e : EnvId) (s : St) : St :=
  ps.foldl (fun s pv => envDefine s e pv.1.lexeme pv.2) s

/-- `Binary.check_number_operands`: returns the two floats or raises a plain
`RuntimeError` (not a `LoxRuntimeError`, so `Interpreter.interpret` would
not catch it). -/
def checkNumberOperands (op : Token) (s : St) (l r : Value) :
    Except Exc (Rat × Rat) :=
  match l, r with
  | .num a, .num b => Except.ok (a, b)
  | _, _ =>
      Except.error (Exc.pyExc "RuntimeError"
        (tokenRepr op ++ ": operands " ++ pyStr s l ++ " and " ++ pyStr s r ++
          " must be numbers"))

/-- `Unary.check_number_operand` and the `MINUS`/`BANG` dispatch of
`Unary.evaluate`. -/
def unaryOp (s : St) (op : Token) (r : Value) : Except Exc Value :=
  if op.type = TokenType.MINUS then
    match r with
    | .num q => Except.ok (Value.num (-q))
    | _ =>
        Except.error (Exc.pyExc "RuntimeError"
          (tokenRepr op ++ ": operand " ++ pyStr s r ++ " must be a number"))
  else if op.type = TokenType.BANG then Except.ok (Value.bool (!is_truthy r))
  else Except.error (Exc.loxRuntime (some op) "Unexpected unary operator.")

/-- The operator dispatch of `Binary.evaluate` once both operands are
evaluated; the catch-all branch returns `None`.  Division by zero raises
Python's `ZeroDivisionError`; the `+` type error is a plain `RuntimeError`
whose message spells "operarands" as the source does. -/
def binaryOp (s : St) (op : Token) (l r : Value) : Except Exc Value :=
  match op.type with
  | .GREATER =>
      (checkNumberOperands op s l r).map fun p => Value.bool (decide (p.2 < p.1))
  | .GREATER_EQUAL =>
      (checkNumberOperands op s l r).map fun p => Value.bool (decide (p.2 ≤ p.1))
  | .LESS =>
      (checkNumberOperands op s l r).map fun p => Value.bool (decide (p.1 < p.2))
  | .LESS_EQUAL =>
      (checkNumberOperands op s l r).map fun p => Value.bool (decide (p.1 ≤ p.2))
  | .BANG_EQUAL => Except.ok (Value.bool (!lox_eq l r))
  | .EQUAL_EQUAL => Except.ok (Value.bool (lox_eq l r))
  | .MINUS =>
      (checkNumberOperands op s l r).map fun p => Value.num (p.1 - p.2)
  | .SLASH =>
      (checkNumberOperands op s l r).bind fun p =>
        if p.2 = 0 then
          Except.error (Exc.pyExc "ZeroDivisionError" "float division by zero")
        else Except.ok (Value.num (p.1 / p.2))
  | .STAR =>
      (checkNumberOperands op s l r).map fun p => Value.num (p.1 * p.2)
  | .PLUS =>
      match l, r with
      | .num a, .num b => Except.ok (Value.num (a + b))
      | .str a, .str b => Except.ok (Value.str (a ++ b))
      | _, _ =>
          Except.error (Exc.pyExc "RuntimeError"
            (tokenRepr op ++ " operarands must both be strs or numbers - " ++
              pyTypeStr l ++ " & " ++ pyTypeStr r))
  | _ => Except.ok Value.nil

/-- `Variable.lookup_variable`: `interpreter.locals[expr]`, keyed by node
identity; a hit uses `environment.get_at(distance, name.lexeme)`, a
`KeyError` falls back to `interpreter.globals.get(name)` (the root
environment, id 0). -/
def lookupVariable (s : St) (name : Token) (exprKey : Nat) : Except Exc Value :=
  match (s.locals.find? (fun p => p.1 = exprKey)).map (·.2) with
  | some d => envGetAt s s.environment d name.lexeme
  | none => envGet s (s.envs.length + 1) 0 name

/-- `self.superclass.name`: `Class.superclass` nodes are always `Variable`
expressions, by construction in `Parser.class_declaration`. -/
def superclassNameToken : Expr → Token
  | .variable _ t => t
  | _ => ⟨TokenType.IDENTIFIER, "", none, 0⟩

/-- The methods-dict loop of `Class.evaluate`: one `LoxFunction` per method
over the current environment, `is_initializer` iff the method is named
`init`.  (`Class.methods` entries are always `Function` statements, by
construction in the parser.) -/
def buildMethodsDict (methods : List Stmt) (env : EnvId) :
    List (String × FunData) :=
  methods.foldl
    (fun d m =>
      match m with
      | Stmt.function mn mp mb =>
          dictSet d mn.lexeme ⟨mn, mp, mb, env, mn.lexeme == "init"⟩
      | _ => d)
    []

/-- Pop the `super` environment at the end of `Class.evaluate` (with the
source's `assert interpreter.environment.enclosing is not None`). -/
def popIfPushed (pushed : Bool) (s : St) : Except Exc St :=
  if pushed then
    match (envOf s s.environment).enclosing with
    | some p => Except.ok { s with environment := p }
    | none => Except.error (Exc.pyExc "AssertionError" "")
  else Except.ok s

/-- The remainder of `Class.evaluate` once the superclass value is settled:
define the class name as `None`, push an environment defining `super` when a
superclass exists, build the methods dict, pop the pushed environment, and
`assign` the finished `LoxClass` to the class name. -/
def execClassBody (name : Token) (sup : Option LoxClass) (methods : List Stmt)
    (s : St) : Except Exc Unit × St :=
  let s₁ := envDefine s s.environment name.lexeme Value.nil
  let (envPushed, s₂) :=
    match sup with
    | some sc =>
        let (e, s') := envAlloc s₁ (some s₁.environment)
        (true, envDefine { s' with environment := e } e "super" (Value.cls sc))
    | none => (false, s₁)
  let klass := LoxClass.mk name.lexeme sup (buildMethodsDict methods s₂.environment)
  match popIfPushed envPushed s₂ with
  | Except.error ex => (Except.error ex, s₂)
  | Except.ok s₃ =>
      match envAssign s₃ (s₃.envs.length + 1) s₃.environment name (Value.cls klass) with
      | Except.error ex => (Except.error ex, s₃)
      | Except.ok s₄ => (Except.ok (), s₄)

/-! ## The evaluator (`evaluate` methods of `_expr.py` and `_stmt.py`,
`LoxFunction.call` / `LoxClass.call` of `_callable.py`)

One mutual block, structurally recursive on a fuel argument; every
recursive call spends one unit. -/

mutual

/-- Dispatch over the per-node `Expr.evaluate` overrides. -/
def evalExpr : Nat → Expr → St → Except Exc Value × St
  | 0, _, s => (Except.error Exc.outOfFuel, s)
  | fuel + 1, e, s =>
      match e with
      | .literal _ v =>
          (Except.ok (match v with
            | .nil => Value.nil
            | .bool b => Value.bool b
            | .num q => Value.num q
            | .str t => Value.str t), s)
      | .grouping _ inner => evalExpr fuel inner s
      | .unary _ op right =>
          match evalExpr fuel right s with
          | (Except.error ex, s₁) => (Except.error ex, s₁)
          | (Except.ok r, s₁) => (unaryOp s₁ op r, s₁)
      | .binary _ left op right =>
          match evalExpr fuel left s with
          | (Except.error ex, s₁) => (Except.error ex, s₁)
          | (Except.ok l, s₁) =>
              match evalExpr fuel right s₁ with
              | (Except.error ex, s₂) => (Except.error ex, s₂)
              | (Except.ok r, s₂) => (binaryOp s₂ op l r, s₂)
      | .variable i name => (lookupVariable s name i, s)
      | .assign _ name value =>
          match evalExpr fuel value s with
          | (Except.error ex, s₁) => (Except.error ex, s₁)
          | (Except.ok v, s₁) =>
              match (s₁.locals.find? (fun p => p.1 = value.exprId)).map (·.2) with
              | some d =>
                  match envAssignAt s₁ s₁.environment d name v with
                  | Except.error ex => (Except.error ex, s₁)
                  | Except.ok s₂ => (Except.ok v, s₂)
              | none =>
                  match envAssign s₁ (s₁.envs.length + 1) 0 name v with
                  | Except.error ex => (Except.error ex, s₁)
                  | Except.ok s₂ => (Except.ok v, s₂)
      | .logical _ left op right =>
          match evalExpr fuel left s with
          | (Except.error ex, s₁) => (Except.error ex, s₁)
          | (Except.ok l, s₁) =>
              if op.type = TokenType.OR then
                if exprNodeIsTruthy left then (Except.ok l, s₁)
                else evalExpr fuel right s₁
              else
                if !exprNodeIsTruthy left then (Except.ok l, s₁)
                else evalExpr fuel right s₁
      | .call _ callee paren args =>
          match evalExpr fuel callee s with
          | (Except.error ex, s₁) => (Except.error ex, s₁)
          | (Except.ok c, s₁) =>
              match evalArgs fuel args s₁ with
              | (Except.error ex, s₂) => (Except.error ex, s₂)
              | (Except.ok vs, s₂) =>
                  if !isLoxCallable c then
                    (Except.error (Exc.loxRuntime (some paren)
                      "Can only call functions and classes."), s₂)
                  else if intNeqArityMethod vs.length c then
                    (Except.error (Exc.loxRuntime (some paren)
                      ("Expected " ++ arityBoundMethodRepr s₂ c ++
                        " arguments, but got " ++ toString vs.length ++ ".")), s₂)
                  else callValue fuel c vs s₂
      | .get _ obj _name =>
          match evalExpr fuel obj s with
          | (Except.error ex, s₁) => (Except.error ex, s₁)
          | (Except.ok _, s₁) =>
              (Except.error (Exc.pyExc "NameError"
                "name 'LoxInstance' is not defined"), s₁)
      | .set _ obj _name _value =>
          match evalExpr fuel obj s with
          | (Except.error ex, s₁) => (Except.error ex, s₁)
          | (Except.ok _, s₁) =>
              (Except.error (Exc.pyExc "NameError"
                "name 'LoxInstance' is not defined"), s₁)
      | .this i keyword => (lookupVariable s keyword i, s)
      | .super i _keyword method =>
          match (s.locals.find? (fun p => p.1 = i)).map (·.2) with
          | none =>
              (Except.error (Exc.loxRuntime (some method)
                "Cannot determine distance to expr."), s)
          | some d =>
              match envGetAt s s.environment d "super" with
              | Except.error ex => (Except.error ex, s)
              | Except.ok supv =>
                  match envGetAt s s.environment (d - 1) "this" with
                  | Except.error ex => (Except.error ex, s)
                  | Except.ok objv =>
                      match supv with
                      | Value.cls c =>
                          match c.findMethod method.lexeme with
                          | none =>
                              (Except.error (Exc.loxRuntime (some method)
                                ("Undefined property " ++ method.lexeme ++ ".")), s)
                          | some m =>
                              let (fd, s₁) := bindMethod s m objv
                              (Except.ok (Value.func fd), s₁)
                      | _ =>
                          (Except.error (Exc.pyExc "AttributeError"
                            "object has no attribute 'find_method'"), s)

/-- The left-to-right `for argument in self.arguments` loop of
`Call.evaluate`. -/
def evalArgs : Nat → List Expr → St → Except Exc (List Value) × St
  | 0, _, s => (Except.error Exc.outOfFuel, s)
  | _ + 1, [], s => (Except.ok [], s)
  | fuel + 1, a :: rest, s =>
      match evalExpr fuel a s with
      | (Except.error ex, s₁) => (Except.error ex, s₁)
      | (Except.ok v, s₁) =>
          match evalArgs fuel rest s₁ with
          | (Except.error ex, s₂) => (Except.error ex, s₂)
          | (Except.ok vs, s₂) => (Except.ok (v :: vs), s₂)

/-- Dispatch over the per-node `Stmt.evaluate` overrides. -/
def execStmt : Nat → Stmt → St → Except Exc Unit × St
  | 0, _, s => (Except.error Exc.outOfFuel, s)
  | fuel + 1, st, s =>
      match st with
      | .expression e =>
          match evalExpr fuel e s with
          | (Except.error ex, s₁) => (Except.error ex, s₁)
          | (Except.ok _, s₁) => (Except.ok (), s₁)
      | .print e =>
          match evalExpr fuel e s with
          | (Except.error ex, s₁) => (Except.error ex, s₁)
          | (Except.ok v, s₁) =>
              (Except.ok (), { s₁ with output := s₁.output ++ [stringify s₁ v] })
      | .var name init =>
          match init with
          | some e =>
              match evalExpr fuel e s with
              | (Except.error ex, s₁) => (Except.error ex, s₁)
              | (Except.ok v, s₁) =>
                  (Except.ok (), envDefine s₁ s₁.environment name.lexeme v)
          | none => (Except.ok (), envDefine s s.environment name.lexeme Value.nil)
      | .block stmts =>
          let (e, s₁) := envAlloc s (some s.environment)
          executeBlock fuel stmts e s₁
      | .ifStmt cond thenB elseB =>
          match evalExpr fuel cond s with
          | (Except.error ex, s₁) => (Except.error ex, s₁)
          | (Except.ok c, s₁) =>
              if is_truthy c then execStmt fuel thenB s₁
              else
                match elseB with
                | some eb => execStmt fuel eb s₁
                | none => (Except.ok (), s₁)
      | .whileStmt cond body => whileLoop fuel cond body s
      | .function name params body =>
          (Except.ok (), envDefine s s.environment name.lexeme
            (Value.func ⟨name, params, body, s.environment, false⟩))
      | .ret _ value =>
          match value with
          | some e =>
              match evalExpr fuel e s with
              | (Except.error ex, s₁) => (Except.error ex, s₁)
              | (Except.ok v, s₁) => (Except.error (Exc.fakeReturn v), s₁)
          | none => (Except.error (Exc.fakeReturn Value.nil), s)
      | .classDecl name sup methods => execClassDecl fuel name sup methods s

/-- `Class.evaluate`: evaluate the superclass expression when present and
require a `LoxClass` (else a one-argument `LoxRuntimeError` whose message
embeds the line), then `execClassBody`. -/
def execClassDecl :
    Nat → Token → Option Expr → List Stmt → St → Except Exc Unit × St
  | 0, _, _, _, s => (Except.error Exc.outOfFuel, s)
  | fuel + 1, name, sup, methods, s =>
      match sup with
      | some supE =>
          match evalExpr fuel supE s with
          | (Except.error ex, s₁) => (Except.error ex, s₁)
          | (Except.ok sv, s₁) =>
              match sv with
              | Value.cls sc => execClassBody name (some sc) methods s₁
              | _ =>
                  let nameTok := superclassNameToken supE
                  (Except.error (Exc.loxRuntime none
                    ("Superclass must be a class: '" ++ nameTok.lexeme ++ "'." ++
                      " [line " ++ toString nameTok.line ++ "]")), s₁)
      | none => execClassBody name none methods s

/-- Sequential statement execution (the loop bodies of `Block.execute_block`
and `Interpreter.interpret`). -/
def execStmts : Nat → List Stmt → St → Except Exc Unit × St
  | 0, _, s => (Except.error Exc.outOfFuel, s)
  | _ + 1, [], s => (Except.ok (), s)
  | fuel + 1, st :: rest, s =>
      match execStmt fuel st s with
      | (Except.error ex, s₁) => (Except.error ex, s₁)
      | (Except.ok _, s₁) => execStmts fuel rest s₁

/-- `Block.execute_block`: save `interpreter.environment`, set it to the
given environment inside the `try`, run the statements, and restore the
saved pointer in the `finally` — on normal completion, on `FakeReturnError`
unwind, and on any error alike. -/
def executeBlock : Nat → List Stmt → EnvId → St → Except Exc Unit × St
  | 0, _, _, s => (Except.error Exc.outOfFuel, s)
  | fuel + 1, stmts, env, s =>
      let previous := s.environment
      match execStmts fuel stmts { s with environment := env } with
      | (r, s₁) => (r, { s₁ with environment := previous })

/-- The `while is_truthy(self.condition.evaluate())` loop of
`While.evaluate`. -/
def whileLoop : Nat → Expr → Stmt → St → Except Exc Unit × St
  | 0, _, _, s => (Except.error Exc.outOfFuel, s)
  | fuel + 1, cond, body, s =>
      match evalExpr fuel cond s with
      | (Except.error ex, s₁) => (Except.error ex, s₁)
      | (Except.ok c, s₁) =>
          if is_truthy c then
            match execStmt fuel body s₁ with
            | (Except.error ex, s₂) => (Except.error ex, s₂)
            | (Except.ok _, s₂) => whileLoop fuel cond body s₂
          else (Except.ok (), s₁)

/-- `LoxFunction.call`: a fresh environment over the closure, parameters
zipped with arguments, the body run through `execute_block`; a caught
`FakeReturnError` yields its value — unless `is_initializer`, which always
answers `closure.get_at(0, "this")`. -/
def functionCall : Nat → FunData → List Value → St → Except Exc Value × St
  | 0, _, _, s => (Except.error Exc.outOfFuel, s)
  | fuel + 1, f, args, s =>
      let (e, s₁) := envAlloc s (some f.closure)
      let s₂ := defineParams (f.params.zip args) e s₁
      match executeBlock fuel f.body e s₂ with
      | (Except.error (Exc.fakeReturn v), s₃) =>
          if f.isInitializer then (envGetAt s₃ f.closure 0 "this", s₃)
          else (Except.ok v, s₃)
      | (Except.error ex, s₃) => (Except.error ex, s₃)
      | (Except.ok _, s₃) =>
          if f.isInitializer then (envGetAt s₃ f.closure 0 "this", s₃)
          else (Except.ok Value.nil, s₃)

/-- `LoxClass.call`: construct the instance, and when an `init` method
exists anywhere on the superclass chain, bind and call it; the result is the
instance. -/
def classCall : Nat → LoxClass → List Value → St → Except Exc Value × St
  | 0, _, _, s => (Except.error Exc.outOfFuel, s)
  | fuel + 1, c, args, s =>
      let (i, s₁) := instAlloc s c
      match c.findMethod "init" with
      | some initM =>
          let (bound, s₂) := bindMethod s₁ initM (Value.inst i)
          match functionCall fuel bound args s₂ with
          | (Except.error ex, s₃) => (Except.error ex, s₃)
          | (Except.ok _, s₃) => (Except.ok (Value.inst i), s₃)
      | none => (Except.ok (Value.inst i), s₁)

/-- `function.call(interpreter, arguments)` — dead code behind the arity
comparison, embedded for completeness.  `Clock.call` is declared
`call(self)` yet would be passed two extra positional arguments: a
`TypeError`. -/
def callValue : Nat → Value → List Value → St → Except Exc Value × St
  | 0, _, _, s => (Except.error Exc.outOfFuel, s)
  | fuel + 1, v, args, s =>
      match v with
      | .func f => functionCall fuel f args s
      | .cls c => classCall fuel c args s
      | .clock =>
          (Except.error (Exc.pyExc "TypeError"
            "Clock.call() takes 1 positional argument but 3 were given"), s)
      | _ =>
          (Except.error (Exc.pyExc "AttributeError"
            "object has no attribute 'call'"), s)

end

/-! ## Resolver (`src/plox/plox/_resolver.py` and the `resolve` methods of
`_expr.py` / `_stmt.py`)

The scope stack is modelled innermost-first: the list head is Python's
`scopes[-1]`, so `enumerate(reversed(self.scopes))` enumerates the model
list in order. -/

/-- One `Scope`: a dict from name to the declared(`False`)/defined(`True`)
flag. -/
abbrev RScope := List (String × Bool)

inductive FunctionType where
  | NONE | FUNCTION | INITIALIZER | METHOD
deriving DecidableEq, Repr

inductive ClassType where
  | NONE | CLASS | SUBCLASS
deriving DecidableEq, Repr

/-- Resolver state: the scope stack, the `current_function` / `current_class`
context, the `locals` side table it writes into the module-global
interpreter, and the `(line, where, message)` triples reported through
`Lox.error_token` (each report sets `had_error`). -/
structure RSt where
  scopes : List RScope
  currentFunction : FunctionType
  currentClass : ClassType
  locals : List (Nat × Nat)
  errors : List (Nat × String × String)
deriving Repr

def initRSt : RSt :=
  { scopes := [], currentFunction := .NONE, currentClass := .NONE,
    locals := [], errors := [] }

/-- `Lox.error_token` → `Lox.report`: `where` is `" at end "` for an `EOF`
token, otherwise `" at 'lexeme' "`. -/
def reportToken (errors : List (Nat × String × String)) (t : Token)
    (msg : String) : List (Nat × String × String) :=
  let whereStr :=
    if t.type = TokenType.EOF then " at end " else " at '" ++ t.lexeme ++ "' "
  errors ++ [(t.line, whereStr, msg)]

def rErrorToken (r : RSt) (t : Token) (msg : String) : RSt :=
  { r with errors := reportToken r.errors t msg }

/-- `Resolver.begin_scope`. -/
def beginScope (r : RSt) : RSt := { r with scopes := [] :: r.scopes }

/-- `Resolver.end_scope`. -/
def endScope (r : RSt) : RSt := { r with scopes := r.scopes.tail }

/-- `Resolver.declare`: no-op at global depth; re-declaration in the same
scope is an error, otherwise mark the slot `False`. -/
def resolverDeclare (r : RSt) (name : Token) : RSt :=
  match r.scopes with
  | [] => r
  | top :: rest =>
      if (dictGet top name.lexeme).isSome then
        rErrorToken r name "Already a variable with this name in this scope."
      else { r with scopes := dictSet top name.lexeme false :: rest }

/-- `Resolver.define`: no-op at global depth, otherwise flip the innermost
slot to `True`. -/
def resolverDefine (r : RSt) (name : Token) : RSt :=
  match r.scopes with
  | [] => r
  | top :: rest => { r with scopes := dictSet top name.lexeme true :: rest }

/-- `dict[k] = v` on the `Nat`-keyed side table (`Interpreter.resolve`). -/
def natDictSet (m : List (Nat × Nat)) (k v : Nat) : List (Nat × Nat) :=
  match m with
  | [] => [(k, v)]
  | (k', v') :: rest =>
      if k' = k then (k, v) :: rest else (k', v') :: natDictSet rest k v

/-- The index — counting from the innermost scope — of the first scope
containing the name: the `distance` loop variable of
`enumerate(reversed(self.scopes))` at the first hit. -/
def findScopeDepth : List RScope → String → Option Nat
  | [], _ => none
  | sc :: rest, n =>
      if (dictGet sc n).isSome then some 0
      else (findScopeDepth rest n).map (· + 1)

/-- `Resolver.resolve_local`: searching from the innermost scope outward, on
the first scope containing the name — at reversed-enumeration index
`distance` — record `len(self.scopes) - 1 - distance` in the interpreter's
side table; no scope contains the name → record nothing. -/
def resolveLocal (r : RSt) (exprKey : Nat) (name : Token) : RSt :=
  match findScopeDepth r.scopes name.lexeme with
  | some distance =>
      { r with locals :=
          natDictSet r.locals exprKey (r.scopes.length - 1 - distance) }
  | none => r

/-- `scopes[-1][name] = True` (used for `"super"` and `"this"` in
`Class.resolve`). -/
def setInTopScope (r : RSt) (n : String) (b : Bool) : RSt :=
  match r.scopes with
  | [] => r
  | top :: rest => { r with scopes := dictSet top n b :: rest }

mutual

/-- Dispatch over the per-node `Expr.resolve` overrides. -/
def resolveExpr : Nat → Expr → RSt → RSt
  | 0, _, r => r
  | fuel + 1, e, r =>
      match e with
      | .binary _ left _ right => resolveExpr fuel right (resolveExpr fuel left r)
      | .grouping _ inner => resolveExpr fuel inner r
      | .literal _ _ => r
      | .unary _ _ right => resolveExpr fuel right r
      | .variable i name =>
          let r₁ :=
            match r.scopes with
            | top :: _ =>
                if dictGet top name.lexeme = some false then
                  rErrorToken r name
                    "Can't read local variable in it's own initializer."
                else r
            | [] => r
          resolveLocal r₁ i name
      | .assign i name value =>
          resolveLocal (resolveExpr fuel value r) i name
      | .logical _ left _ right =>
          resolveExpr fuel right (resolveExpr fuel left r)
      | .call _ callee _ args =>
          resolveExprList fuel args (resolveExpr fuel callee r)
      | .get _ obj _ => resolveExpr fuel obj r
      | .set _ obj _ value =>
          resolveExpr fuel obj (resolveExpr fuel value r)
      | .this i keyword =>
          if r.currentClass = ClassType.NONE then
            rErrorToken r keyword "Can't use 'this' outside of a class."
          else resolveLocal r i keyword
      | .super i keyword _ =>
          let r₁ :=
            if r.currentClass = ClassType.NONE then
              rErrorToken r keyword "Can't use 'super' outside of a class."
            else if r.currentClass ≠ ClassType.SUBCLASS then
              rErrorToken r keyword
                "Can't use 'super' in a class with not superclass."
            else r
          resolveLocal r₁ i keyword

def resolveExprList : Nat → List Expr → RSt → RSt
  | 0, _, r => r
  | _ + 1, [], r => r
  | fuel + 1, e :: rest, r => resolveExprList fuel rest (resolveExpr fuel e r)

/-- Dispatch over the per-node `Stmt.resolve` overrides. -/
def resolveStmt : Nat → Stmt → RSt → RSt
  | 0, _, r => r
  | fuel + 1, st, r =>
      match st with
      | .print e => resolveExpr fuel e r
      | .expression e => resolveExpr fuel e r
      | .var name init =>
          let r₁ := resolverDeclare r name
          let r₂ :=
            match init with
            | some e => resolveExpr fuel e r₁
            | none => r₁
          resolverDefine r₂ name
      | .block stmts => endScope (resolveStmtList fuel stmts (beginScope r))
      | .ifStmt cond thenB elseB =>
          let r₁ := resolveStmt fuel thenB (resolveExpr fuel cond r)
          match elseB with
          | some eb => resolveStmt fuel eb r₁
          | none => r₁
      | .whileStmt cond body => resolveStmt fuel body (resolveExpr fuel cond r)
      | .function name params body =>
          let r₁ := resolverDefine (resolverDeclare r name) name
          resolveFunction fuel params body FunctionType.FUNCTION r₁
      | .ret keyword value =>
          let r₁ :=
            if r.currentFunction = FunctionType.NONE then
              rErrorToken r keyword "Can't return from outside function."
            else r
          match value with
          | some e =>
              let r₂ :=
                if r₁.currentFunction = FunctionType.INITIALIZER then
                  rErrorToken r₁ keyword "Can't return a value from an initializer."
                else r₁
              resolveExpr fuel e r₂
          | none => r₁
      | .classDecl name sup methods =>
          let enclosing := r.currentClass
          let r₁ := { r with currentClass := ClassType.CLASS }
          let r₂ := resolverDefine (resolverDeclare r₁ name) name
          let r₃ :=
            match sup with
            | some supE =>
                if name.lexeme = (superclassNameToken supE).lexeme then
                  rErrorToken r₂ (superclassNameToken supE)
                    "A class cannot inherit from itself."
                else r₂
            | none => r₂
          let r₄ :=
            match sup with
            | some supE =>
                resolveExpr fuel supE { r₃ with currentClass := ClassType.SUBCLASS }
            | none => r₃
          let r₅ :=
            match sup with
            | some _ => setInTopScope (beginScope r₄) "super" true
            | none => r₄
          let r₆ := setInTopScope (beginScope r₅) "this" true
          let r₇ := resolveMethods fuel methods r₆
          let r₈ := endScope r₇
          let r₉ :=
            match sup with
            | some _ => endScope r₈
            | none => r₈
          { r₉ with currentClass := enclosing }

def resolveStmtList : Nat → List Stmt → RSt → RSt
  | 0, _, r => r
  | _ + 1, [], r => r
  | fuel + 1, st :: rest, r => resolveStmtList fuel rest (resolveStmt fuel st r)

/-- The per-method loop of `Class.resolve`: `METHOD`, or `INITIALIZER` for a
method named `init`. -/
def resolveMethods : Nat → List Stmt → RSt → RSt
  | 0, _, r => r
  | _ + 1, [], r => r
  | fuel + 1, m :: rest, r =>
      match m with
      | Stmt.function mn mp mb =>
          let d :=
            if mn.lexeme = "init" then FunctionType.INITIALIZER
            else FunctionType.METHOD
          resolveMethods fuel rest (resolveFunction fuel mp mb d r)
      | _ => resolveMethods fuel rest r

/-- `Function.resolve_function`: swap `current_function`, one fresh scope
holding the declared-and-defined parameters, resolve the body, restore. -/
def resolveFunction :
    Nat → List Token → List Stmt → FunctionType → RSt → RSt
  | 0, _, _, _, r => r
  | fuel + 1, params, body, ftype, r =>
      let enclosing := r.currentFunction
      let r₁ := { r with currentFunction := ftype }
      let r₂ := params.foldl
        (fun r p => resolverDefine (resolverDeclare r p) p) (beginScope r₁)
      let r₃ := endScope (resolveStmtList fuel body r₂)
      { r₃ with currentFunction := enclosing }

end

/-! ## Parser (`src/plox/plox/_parser.py`)

Recursive descent over the scanner's token list.  `ParseError` is the
`Except Unit` error; `Parser.error` records the diagnostic through
`Lox.error_token` and returns the error value — the call sites that write
`raise self.error(...)` propagate it, the two call sites that do not
(`assignment`'s invalid target and the 255-argument/parameter checks) record
and continue, exactly as in the source.  Each freshly built `Expr` node gets
a fresh id from `nextId`, modelling Python object identity. -/

structure PSt where
  tokens : List Token
  current : Nat
  errors : List (Nat × String × String)
  nextId : Nat
deriving Repr

/-- Default for out-of-range token reads; the scanner's output always ends
in `EOF` and `Parser.advance` never moves past it, so it is never used on a
list that came from `scanTokens`. -/
def defaultEofToken : Token := ⟨TokenType.EOF, "", none, 0⟩

/-- `Parser.peek`. -/
def pPeek (p : PSt) : Token := p.tokens.getD p.current defaultEofToken

/-- `Parser.previous`. -/
def pPrevious (p : PSt) : Token := p.tokens.getD (p.current - 1) defaultEofToken

/-- `Parser.is_at_end`. -/
def pIsAtEnd (p : PSt) : Bool := (pPeek p).type = TokenType.EOF

/-- `Parser.check`. -/
def pCheck (p : PSt) (t : TokenType) : Bool :=
  if pIsAtEnd p then false else (pPeek p).type = t

/-- `Parser.advance`. -/
def pAdvance (p : PSt) : Token × PSt :=
  let p' := if pIsAtEnd p then p else { p with current := p.current + 1 }
  (pPrevious p', p')

/-- `Parser.match`: advance past the first token type that checks. -/
def pMatch (p : PSt) (ts : List TokenType) : Bool × PSt :=
  match ts.find? (fun t => pCheck p t) with
  | some _ => (true, (pAdvance p).2)
  | none => (false, p)

/-- `Parser.error`: report through `Lox.error_token` and hand back the
`ParseError` for the caller to raise (or not). -/
def pError (p : PSt) (t : Token) (msg : String) : PSt :=
  { p with errors := reportToken p.errors t msg }

/-- `Parser.consume`. -/
def pConsume (p : PSt) (t : TokenType) (msg : String) : Except Unit Token × PSt :=
  if pCheck p t then
    let (tok, p') := pAdvance p
    (Except.ok tok, p')
  else (Except.error (), pError p (pPeek p) msg)

/-- A fresh node identity. -/
def freshId (p : PSt) : Nat × PSt := (p.nextId, { p with nextId := p.nextId + 1 })

/-- The synchronisation-point set of `Parser.synchronize`. -/
def isSyncKeyword (t : TokenType) : Bool :=
  match t with
  | .CLASS | .FUN | .VAR | .FOR | .IF | .WHILE | .PRINT | .RETURN => true
  | _ => false

/-- The loop of `Parser.synchronize`. -/
def pSyncLoop : Nat → PSt → PSt
  | 0, p => p
  | fuel + 1, p =>
      if pIsAtEnd p then p
      else if (pPrevious p).type = TokenType.SEMICOLON then p
      else if isSyncKeyword (pPeek p).type then p
      else pSyncLoop fuel (pAdvance p).2

/-- `Parser.synchronize`: advance once, then discard until just past a `;`
or just before a statement keyword. -/
def pSynchronize (p : PSt) : PSt :=
  pSyncLoop (p.tokens.length + 1) (pAdvance p).2

/-- The `try`/`except ParseError` wrapper of `Parser.declaration`:
a raised `ParseError` synchronises and discards the declaration. -/
def pRecover (res : Except Unit Stmt × PSt) : Option Stmt × PSt :=
  match res with
  | (Except.ok st, p) => (some st, p)
  | (Except.error _, p) => (none, pSynchronize p)

mutual

/-- `Parser.expression`. -/
def pExpression : Nat → PSt → Except Unit Expr × PSt
  | 0, p => (Except.error (), p)
  | fuel + 1, p => pAssignment fuel p

/-- `Parser.assignment`: parse an r-value; after `=`, a `Variable` target
becomes `Assign`, a `Get` target becomes `Set`, anything else records
"Invalid assignment target." WITHOUT raising and falls through to return the
r-value. -/
def pAssignment : Nat → PSt → Except Unit Expr × PSt
  | 0, p => (Except.error (), p)
  | fuel + 1, p =>
      match pOrExpression fuel p with
      | (Except.error e, p₁) => (Except.error e, p₁)
      | (Except.ok expr, p₁) =>
          let (m, p₂) := pMatch p₁ [TokenType.EQUAL]
          if m then
            let equals := pPrevious p₂
            match pAssignment fuel p₂ with
            | (Except.error e, p₃) => (Except.error e, p₃)
            | (Except.ok value, p₃) =>
                match expr with
                | Expr.variable _ nameTok =>
                    let (i, p₄) := freshId p₃
                    (Except.ok (Expr.assign i nameTok value), p₄)
                | Expr.get _ obj nameTok =>
                    let (i, p₄) := freshId p₃
                    (Except.ok (Expr.set i obj nameTok value), p₄)
                | _ => (Except.ok expr, pError p₃ equals "Invalid assignment target.")
          else (Except.ok expr, p₂)

/-- `Parser.or_expression`. -/
def pOrExpression : Nat → PSt → Except Unit Expr × PSt
  | 0, p => (Except.error (), p)
  | fuel + 1, p =>
      match pAndExpression fuel p with
      | (Except.error e, p₁) => (Except.error e, p₁)
      | (Except.ok expr, p₁) => pOrLoop fuel expr p₁

def pOrLoop : Nat → Expr → PSt → Except Unit Expr × PSt
  | 0, _, p => (Except.error (), p)
  | fuel + 1, expr, p =>
      let (m, p₁) := pMatch p [TokenType.OR]
      if m then
        let operator := pPrevious p₁
        match pAndExpression fuel p₁ with
        | (Except.error e, p₂) => (Except.error e, p₂)
        | (Except.ok right, p₂) =>
            let (i, p₃) := freshId p₂
            pOrLoop fuel (Expr.logical i expr operator right) p₃
      else (Except.ok expr, p₁)

/-- `Parser.and_expression`. -/
def pAndExpression : Nat → PSt → Except Unit Expr × PSt
  | 0, p => (Except.error (), p)
  | fuel + 1, p =>
      match pEquality fuel p with
      | (Except.error e, p₁) => (Except.error e, p₁)
      | (Except.ok expr, p₁) => pAndLoop fuel expr p₁

def pAndLoop : Nat → Expr → PSt → Except Unit Expr × PSt
  | 0, _, p => (Except.error (), p)
  | fuel + 1, expr, p =>
      let (m, p₁) := pMatch p [TokenType.AND]
      if m then
        let operator := pPrevious p₁
        match pEquality fuel p₁ with
        | (Except.error e, p₂) => (Except.error e, p₂)
        | (Except.ok right, p₂) =>
            let (i, p₃) := freshId p₂
            pAndLoop fuel (Expr.logical i expr operator right) p₃
      else (Except.ok expr, p₁)

/-- `Parser.equality`. -/
def pEquality : Nat → PSt → Except Unit Expr × PSt
  | 0, p => (Except.error (), p)
  | fuel + 1, p =>
      match pComparison fuel p with
      | (Except.error e, p₁) => (Except.error e, p₁)
      | (Except.ok expr, p₁) => pEqualityLoop fuel expr p₁

def pEqualityLoop : Nat → Expr → PSt → Except Unit Expr × PSt
  | 0, _, p => (Except.error (), p)
  | fuel + 1, expr, p =>
      let (m, p₁) := pMatch p [TokenType.BANG_EQUAL, TokenType.EQUAL_EQUAL]
      if m then
        let operator := pPrevious p₁
        match pComparison fuel p₁ with
        | (Except.error e, p₂) => (Except.error e, p₂)
        | (Except.ok right, p₂) =>
            let (i, p₃) := freshId p₂
            pEqualityLoop fuel (Expr.binary i expr operator right) p₃
      else (Except.ok expr, p₁)

/-- `Parser.comparison`. -/
def pComparison : Nat → PSt → Except Unit Expr × PSt
  | 0, p => (Except.error (), p)
  | fuel + 1, p =>
      match pTerm fuel p with
      | (Except.error e, p₁) => (Except.error e, p₁)
      | (Except.ok expr, p₁) => pComparisonLoop fuel expr p₁

def pComparisonLoop : Nat → Expr → PSt → Except Unit Expr × PSt
  | 0, _, p => (Except.error (), p)
  | fuel + 1, expr, p =>
      let (m, p₁) := pMatch p
        [TokenType.GREATER, TokenType.GREATER_EQUAL, TokenType.LESS,
         TokenType.LESS_EQUAL]
      if m then
        let operator := pPrevious p₁
        match pTerm fuel p₁ with
        | (Except.error e, p₂) => (Except.error e, p₂)
        | (Except.ok right, p₂) =>
            let (i, p₃) := freshId p₂
            pComparisonLoop fuel (Expr.binary i expr operator right) p₃
      else (Except.ok expr, p₁)

/-- `Parser.term`. -/
def pTerm : Nat → PSt → Except Unit Expr × PSt
  | 0, p => (Except.error (), p)
  | fuel + 1, p =>
      match pFactor fuel p with
      | (Except.error e, p₁) => (Except.error e, p₁)
      | (Except.ok expr, p₁) => pTermLoop fuel expr p₁

def pTermLoop : Nat → Expr → PSt → Except Unit Expr × PSt
  | 0, _, p => (Except.error (), p)
  | fuel + 1, expr, p =>
      let (m, p₁) := pMatch p [TokenType.MINUS, TokenType.PLUS]
      if m then
        let operator := pPrevious p₁
        match pFactor fuel p₁ with
        | (Except.error e, p₂) => (Except.error e, p₂)
        | (Except.ok right, p₂) =>
            let (i, p₃) := freshId p₂
            pTermLoop fuel (Expr.binary i expr operator right) p₃
      else (Except.ok expr, p₁)

/-- `Parser.factor`. -/
def pFactor : Nat → PSt → Except Unit Expr × PSt
  | 0, p => (Except.error (), p)
  | fuel + 1, p =>
      match pUnary fuel p with
      | (Except.error e, p₁) => (Except.error e, p₁)
      | (Except.ok expr, p₁) => pFactorLoop fuel expr p₁

def pFactorLoop : Nat → Expr → PSt → Except Unit Expr × PSt
  | 0, _, p => (Except.error (), p)
  | fuel + 1, expr, p =>
      let (m, p₁) := pMatch p [TokenType.SLASH, TokenType.STAR]
      if m then
        let operator := pPrevious p₁
        match pUnary fuel p₁ with
        | (Except.error e, p₂) => (Except.error e, p₂)
        | (Except.ok right, p₂) =>
            let (i, p₃) := freshId p₂
            pFactorLoop fuel (Expr.binary i expr operator right) p₃
      else (Except.ok expr, p₁)

/-- `Parser.unary`. -/
def pUnary : Nat → PSt → Except Unit Expr × PSt
  | 0, p => (Except.error (), p)
  | fuel + 1, p =>
      let (m, p₁) := pMatch p [TokenType.BANG, TokenType.MINUS]
      if m then
        let operator := pPrevious p₁
        match pUnary fuel p₁ with
        | (Except.error e, p₂) => (Except.error e, p₂)
        | (Except.ok right, p₂) =>
            let (i, p₃) := freshId p₂
            (Except.ok (Expr.unary i operator right), p₃)
      else pCallRule fuel p₁

/-- `Parser.call`. -/
def pCallRule : Nat → PSt → Except Unit Expr × PSt
  | 0, p => (Except.error (), p)
  | fuel + 1, p =>
      match pPrimary fuel p with
      | (Except.error e, p₁) => (Except.error e, p₁)
      | (Except.ok expr, p₁) => pCallLoop fuel expr p₁

/-- The `while True` postfix loop of `Parser.call`. -/
def pCallLoop : Nat → Expr → PSt → Except Unit Expr × PSt
  | 0, _, p => (Except.error (), p)
  | fuel + 1, expr, p =>
      let (m, p₁) := pMatch p [TokenType.LEFT_PAREN]
      if m then
        match pFinishCall fuel expr p₁ with
        | (Except.error e, p₂) => (Except.error e, p₂)
        | (Except.ok e', p₂) => pCallLoop fuel e' p₂
      else
        let (m2, p₂) := pMatch p₁ [TokenType.DOT]
        if m2 then
          match pConsume p₂ TokenType.IDENTIFIER "Expect property name after '.'." with
          | (Except.error e, p₃) => (Except.error e, p₃)
          | (Except.ok nameTok, p₃) =>
              let (i, p₄) := freshId p₃
              pCallLoop fuel (Expr.get i expr nameTok) p₄
        else (Except.ok expr, p₂)

/-- `Parser.finish_call`. -/
def pFinishCall : Nat → Expr → PSt → Except Unit Expr × PSt
  | 0, _, p => (Except.error (), p)
  | fuel + 1, callee, p =>
      let argsRes :=
        if !pCheck p TokenType.RIGHT_PAREN then
          match pExpression fuel p with
          | (Except.error e, p₁) => (Except.error e, p₁)
          | (Except.ok a, p₁) => pArgsLoop fuel [a] p₁
        else (Except.ok [], p)
      match argsRes with
      | (Except.error e, p₁) => (Except.error e, p₁)
      | (Except.ok args, p₁) =>
          match pConsume p₁ TokenType.RIGHT_PAREN "Expect ')' after arguments." with
          | (Except.error e, p₂) => (Except.error e, p₂)
          | (Except.ok paren, p₂) =>
              let (i, p₃) := freshId p₂
              (Except.ok (Expr.call i callee paren args), p₃)

/-- The `while self.match(COMMA)` loop of `finish_call`; the 255-argument
check records an error without raising. -/
def pArgsLoop : Nat → List Expr → PSt → Except Unit (List Expr) × PSt
  | 0, _, p => (Except.error (), p)
  | fuel + 1, acc, p =>
      let (m, p₁) := pMatch p [TokenType.COMMA]
      if m then
        let p₂ :=
          if 255 ≤ acc.length then
            pError p₁ (pPeek p₁) "Can't have more than 255 arguments."
          else p₁
        match pExpression fuel p₂ with
        | (Except.error e, p₃) => (Except.error e, p₃)
        | (Except.ok a, p₃) => pArgsLoop fuel (acc ++ [a]) p₃
      else (Except.ok acc, p₁)

/-- `Parser.primary`. -/
def pPrimary : Nat → PSt → Except Unit Expr × PSt
  | 0, p => (Except.error (), p)
  | fuel + 1, p =>
      let (mF, p₁) := pMatch p [TokenType.FALSE]
      if mF then
        let (i, p₂) := freshId p₁
        (Except.ok (Expr.literal i (LitVal.bool false)), p₂)
      else
      let (mT, p₁) := pMatch p [TokenType.TRUE]
      if mT then
        let (i, p₂) := freshId p₁
        (Except.ok (Expr.literal i (LitVal.bool true)), p₂)
      else
      let (mN, p₁) := pMatch p [TokenType.NIL]
      if mN then
        let (i, p₂) := freshId p₁
        (Except.ok (Expr.literal i LitVal.nil), p₂)
      else
      let (mL, p₁) := pMatch p [TokenType.NUMBER, TokenType.STRING]
      if mL then
        let lv :=
          match (pPrevious p₁).literal with
          | some (PyLit.num q) => LitVal.num q
          | some (PyLit.str t) => LitVal.str t
          | none => LitVal.nil
        let (i, p₂) := freshId p₁
        (Except.ok (Expr.literal i lv), p₂)
      else
      let (mS, p₁) := pMatch p [TokenType.SUPER]
      if mS then
        let keyword := pPrevious p₁
        match pConsume p₁ TokenType.DOT "Expect '.' after 'super'." with
        | (Except.error e, p₂) => (Except.error e, p₂)
        | (Except.ok _, p₂) =>
            match pConsume p₂ TokenType.IDENTIFIER "Expect superclass method name." with
            | (Except.error e, p₃) => (Except.error e, p₃)
            | (Except.ok method, p₃) =>
                let (i, p₄) := freshId p₃
                (Except.ok (Expr.super i keyword method), p₄)
      else
      let (mP, p₁) := pMatch p [TokenType.LEFT_PAREN]
      if mP then
        match pExpression fuel p₁ with
        | (Except.error e, p₂) => (Except.error e, p₂)
        | (Except.ok inner, p₂) =>
            match pConsume p₂ TokenType.RIGHT_PAREN "Expect ')' after expression." with
            | (Except.error e, p₃) => (Except.error e, p₃)
            | (Except.ok _, p₃) =>
                let (i, p₄) := freshId p₃
                (Except.ok (Expr.grouping i inner), p₄)
      else
      let (mTh, p₁) := pMatch p [TokenType.THIS]
      if mTh then
        let (i, p₂) := freshId p₁
        (Except.ok (Expr.this i (pPrevious p₁)), p₂)
      else
      let (mI, p₁) := pMatch p [TokenType.IDENTIFIER]
      if mI then
        let (i, p₂) := freshId p₁
        (Except.ok (Expr.variable i (pPrevious p₁)), p₂)
      else (Except.error (), pError p₁ (pPeek p₁) "Expect expression.")

end

mutual

/-- `Parser.declaration`: dispatch on `class` / `fun` / `var` / statement,
catching `ParseError` by synchronising and dropping the declaration. -/
def pDeclaration : Nat → PSt → Option Stmt × PSt
  | 0, p => (none, p)
  | fuel + 1, p =>
      let (mC, p₁) := pMatch p [TokenType.CLASS]
      if mC then pRecover (pClassDeclaration fuel p₁)
      else
        let (mF, p₂) := pMatch p₁ [TokenType.FUN]
        if mF then pRecover (pFunction fuel "function" p₂)
        else
          let (mV, p₃) := pMatch p₂ [TokenType.VAR]
          if mV then pRecover (pVarDeclaration fuel p₃)
          else pRecover (pStatement fuel p₃)

/-- `Parser.class_declaration`. -/
def pClassDeclaration : Nat → PSt → Except Unit Stmt × PSt
  | 0, p => (Except.error (), p)
  | fuel + 1, p =>
      match pConsume p TokenType.IDENTIFIER "Expect class name." with
      | (Except.error e, p₁) => (Except.error e, p₁)
      | (Except.ok name, p₁) =>
          let (mL, p₂) := pMatch p₁ [TokenType.LESS]
          let supRes :=
            if mL then
              match pConsume p₂ TokenType.IDENTIFIER "Expect superclass name." with
              | (Except.error e, p₃) => (Except.error e, p₃)
              | (Except.ok _, p₃) =>
                  let (i, p₄) := freshId p₃
                  (Except.ok (some (Expr.variable i (pPrevious p₄))), p₄)
            else (Except.ok none, p₂)
          match supRes with
          | (Except.error e, p₃) => (Except.error e, p₃)
          | (Except.ok sup, p₃) =>
              match pConsume p₃ TokenType.LEFT_BRACE "Expect '\x7b' before class body." with
              | (Except.error e, p₄) => (Except.error e, p₄)
              | (Except.ok _, p₄) =>
                  match pMethodsLoop fuel [] p₄ with
                  | (Except.error e, p₅) => (Except.error e, p₅)
                  | (Except.ok methods, p₅) =>
                      match pConsume p₅ TokenType.RIGHT_BRACE "Expect '\x7d' after class body." with
                      | (Except.error e, p₆) => (Except.error e, p₆)
                      | (Except.ok _, p₆) =>
                          (Except.ok (Stmt.classDecl name sup methods), p₆)

/-- The methods loop of `class_declaration`. -/
def pMethodsLoop : Nat → List Stmt → PSt → Except Unit (List Stmt) × PSt
  | 0, _, p => (Except.error (), p)
  | fuel + 1, acc, p =>
      if !pCheck p TokenType.RIGHT_BRACE && !pIsAtEnd p then
        match pFunction fuel "method" p with
        | (Except.error e, p₁) => (Except.error e, p₁)
        | (Except.ok m, p₁) => pMethodsLoop fuel (acc ++ [m]) p₁
      else (Except.ok acc, p)

/-- `Parser.statement`. -/
def pStatement : Nat → PSt → Except Unit Stmt × PSt
  | 0, p => (Except.error (), p)
  | fuel + 1, p =>
      let (mFor, p₁) := pMatch p [TokenType.FOR]
      if mFor then pForStatement fuel p₁
      else
        let (mIf, p₂) := pMatch p₁ [TokenType.IF]
        if mIf then pIfStatement fuel p₂
        else
          let (mPr, p₃) := pMatch p₂ [TokenType.PRINT]
          if mPr then pPrintStatement fuel p₃
          else
            let (mRet, p₄) := pMatch p₃ [TokenType.RETURN]
            if mRet then pReturnStatement fuel p₄
            else
              let (mWh, p₅) := pMatch p₄ [TokenType.WHILE]
              if mWh then pWhileStatement fuel p₅
              else
                let (mBr, p₆) := pMatch p₅ [TokenType.LEFT_BRACE]
                if mBr then
                  match pBlock fuel p₆ with
                  | (Except.error e, p₇) => (Except.error e, p₇)
                  | (Except.ok stmts, p₇) => (Except.ok (Stmt.block stmts), p₇)
                else pExpressionStatement fuel p₆

/-- `Parser.for_statement`, including the desugaring to
`{ init; while (cond) { body; incr; } }`. -/
def pForStatement : Nat → PSt → Except Unit Stmt × PSt
  | 0, p => (Except.error (), p)
  | fuel + 1, p =>
      match pConsume p TokenType.LEFT_PAREN "Expect '(' after 'for'." with
      | (Except.error e, p₁) => (Except.error e, p₁)
      | (Except.ok _, p₁) =>
          let initRes :=
            let (mSemi, q) := pMatch p₁ [TokenType.SEMICOLON]
            if mSemi then (Except.ok none, q)
            else
              let (mVar, q₁) := pMatch q [TokenType.VAR]
              if mVar then
                match pVarDeclaration fuel q₁ with
                | (Except.error e, q₂) => (Except.error e, q₂)
                | (Except.ok st, q₂) => (Except.ok (some st), q₂)
              else
                match pExpressionStatement fuel q₁ with
                | (Except.error e, q₂) => (Except.error e, q₂)
                | (Except.ok st, q₂) => (Except.ok (some st), q₂)
          match initRes with
          | (Except.error e, p₂) => (Except.error e, p₂)
          | (Except.ok initializer, p₂) =>
              let condRes :=
                if !pCheck p₂ TokenType.SEMICOLON then
                  match pExpression fuel p₂ with
                  | (Except.error e, q) => (Except.error e, q)
                  | (Except.ok c, q) => (Except.ok (some c), q)
                else (Except.ok none, p₂)
              match condRes with
              | (Except.error e, p₃) => (Except.error e, p₃)
              | (Except.ok condition, p₃) =>
                  match pConsume p₃ TokenType.SEMICOLON "Expect ';' after loop condition." with
                  | (Except.error e, p₄) => (Except.error e, p₄)
                  | (Except.ok _, p₄) =>
                      let incrRes :=
                        if !pCheck p₄ TokenType.RIGHT_PAREN then
                          match pExpression fuel p₄ with
                          | (Except.error e, q) => (Except.error e, q)
                          | (Except.ok c, q) => (Except.ok (some c), q)
                        else (Except.ok none, p₄)
                      match incrRes with
                      | (Except.error e, p₅) => (Except.error e, p₅)
                      | (Except.ok increment, p₅) =>
                          match pConsume p₅ TokenType.RIGHT_PAREN "Expect ')' after for clauses." with
                          | (Except.error e, p₆) => (Except.error e, p₆)
                          | (Except.ok _, p₆) =>
                              match pStatement fuel p₆ with
                              | (Except.error e, p₇) => (Except.error e, p₇)
                              | (Except.ok body, p₇) =>
                                  let body₁ :=
                                    match increment with
                                    | some inc =>
                                        Stmt.block [body, Stmt.expression inc]
                                    | none => body
                                  let (cond, p₈) :=
                                    match condition with
                                    | some c => (c, p₇)
                                    | none =>
                                        let (i, q) := freshId p₇
                                        (Expr.literal i (LitVal.bool true), q)
                                  let body₂ := Stmt.whileStmt cond body₁
                                  let body₃ :=
                                    match initializer with
                                    | some ini => Stmt.block [ini, body₂]
                                    | none => body₂
                                  (Except.ok body₃, p₈)

/-- `Parser.if_statement`. -/
def pIfStatement : Nat → PSt → Except Unit Stmt × PSt
  | 0, p => (Except.error (), p)
  | fuel + 1, p =>
      match pConsume p TokenType.LEFT_PAREN "Expect '(' after if." with
      | (Except.error e, p₁) => (Except.error e, p₁)
      | (Except.ok _, p₁) =>
          match pExpression fuel p₁ with
          | (Except.error e, p₂) => (Except.error e, p₂)
          | (Except.ok condition, p₂) =>
              match pConsume p₂ TokenType.RIGHT_PAREN "Expect ')' after if condition." with
              | (Except.error e, p₃) => (Except.error e, p₃)
              | (Except.ok _, p₃) =>
                  match pStatement fuel p₃ with
                  | (Except.error e, p₄) => (Except.error e, p₄)
                  | (Except.ok thenB, p₄) =>
                      let (mE, p₅) := pMatch p₄ [TokenType.ELSE]
                      if mE then
                        match pStatement fuel p₅ with
                        | (Except.error e, p₆) => (Except.error e, p₆)
                        | (Except.ok elseB, p₆) =>
                            (Except.ok (Stmt.ifStmt condition thenB (some elseB)), p₆)
                      else (Except.ok (Stmt.ifStmt condition thenB none), p₅)

/-- `Parser.print_statement`. -/
def pPrintStatement : Nat → PSt → Except Unit Stmt × PSt
  | 0, p => (Except.error (), p)
  | fuel + 1, p =>
      match pExpression fuel p with
      | (Except.error e, p₁) => (Except.error e, p₁)
      | (Except.ok value, p₁) =>
          match pConsume p₁ TokenType.SEMICOLON "Expect ';' after value." with
          | (Except.error e, p₂) => (Except.error e, p₂)
          | (Except.ok _, p₂) => (Except.ok (Stmt.print value), p₂)

/-- `Parser.return_statement`. -/
def pReturnStatement : Nat → PSt → Except Unit Stmt × PSt
  | 0, p => (Except.error (), p)
  | fuel + 1, p =>
      let keyword := pPrevious p
      let valueRes :=
        if !pCheck p TokenType.SEMICOLON then
          match pExpression fuel p with
          | (Except.error e, q) => (Except.error e, q)
          | (Except.ok v, q) => (Except.ok (some v), q)
        else (Except.ok none, p)
      match valueRes with
      | (Except.error e, p₁) => (Except.error e, p₁)
      | (Except.ok value, p₁) =>
          match pConsume p₁ TokenType.SEMICOLON "Expect ';' after return value" with
          | (Except.error e, p₂) => (Except.error e, p₂)
          | (Except.ok _, p₂) => (Except.ok (Stmt.ret keyword value), p₂)

/-- `Parser.var_declaration`: name, optional `= initializer`, `;` — and then
the source REJECTS a missing initializer, raising
`self.error(self.peek(), "Expect variable expression.")`. -/
def pVarDeclaration : Nat → PSt → Except Unit Stmt × PSt
  | 0, p => (Except.error (), p)
  | fuel + 1, p =>
      match pConsume p TokenType.IDENTIFIER "Expect variable name." with
      | (Except.error e, p₁) => (Except.error e, p₁)
      | (Except.ok name, p₁) =>
          let initRes :=
            let (mEq, q) := pMatch p₁ [TokenType.EQUAL]
            if mEq then
              match pExpression fuel q with
              | (Except.error e, q₁) => (Except.error e, q₁)
              | (Except.ok ini, q₁) => (Except.ok (some ini), q₁)
            else (Except.ok none, q)
          match initRes with
          | (Except.error e, p₂) => (Except.error e, p₂)
          | (Except.ok initializer, p₂) =>
              match pConsume p₂ TokenType.SEMICOLON "Expect ';' after variable declaration" with
              | (Except.error e, p₃) => (Except.error e, p₃)
              | (Except.ok _, p₃) =>
                  match initializer with
                  | none =>
                      (Except.error (),
                        pError p₃ (pPeek p₃) "Expect variable expression.")
                  | some ini => (Except.ok (Stmt.var name (some ini)), p₃)

/-- `Parser.while_statement`. -/
def pWhileStatement : Nat → PSt → Except Unit Stmt × PSt
  | 0, p => (Except.error (), p)
  | fuel + 1, p =>
      match pConsume p TokenType.LEFT_PAREN "Expect '(' after 'while'." with
      | (Except.error e, p₁) => (Except.error e, p₁)
      | (Except.ok _, p₁) =>
          match pExpression fuel p₁ with
          | (Except.error e, p₂) => (Except.error e, p₂)
          | (Except.ok condition, p₂) =>
              match pConsume p₂ TokenType.RIGHT_PAREN "Expect ')' after condition." with
              | (Except.error e, p₃) => (Except.error e, p₃)
              | (Except.ok _, p₃) =>
                  match pStatement fuel p₃ with
                  | (Except.error e, p₄) => (Except.error e, p₄)
                  | (Except.ok body, p₄) =>
                      (Except.ok (Stmt.whileStmt condition body), p₄)

/-- `Parser.expression_statement`. -/
def pExpressionStatement : Nat → PSt → Except Unit Stmt × PSt
  | 0, p => (Except.error (), p)
  | fuel + 1, p =>
      match pExpression fuel p with
      | (Except.error e, p₁) => (Except.error e, p₁)
      | (Except.ok expr, p₁) =>
          match pConsume p₁ TokenType.SEMICOLON "Expect ';' after expression." with
          | (Except.error e, p₂) => (Except.error e, p₂)
          | (Except.ok _, p₂) => (Except.ok (Stmt.expression expr), p₂)

/-- `Parser.function` (`kind` is "function" or "method"). -/
def pFunction : Nat → String → PSt → Except Unit Stmt × PSt
  | 0, _, p => (Except.error (), p)
  | fuel + 1, kind, p =>
      match pConsume p TokenType.IDENTIFIER ("Expect " ++ kind ++ " name.") with
      | (Except.error e, p₁) => (Except.error e, p₁)
      | (Except.ok name, p₁) =>
          match pConsume p₁ TokenType.LEFT_PAREN ("Expect '(' after " ++ kind ++ " name.") with
          | (Except.error e, p₂) => (Except.error e, p₂)
          | (Except.ok _, p₂) =>
              let paramsRes :=
                if !pCheck p₂ TokenType.RIGHT_PAREN then
                  match pConsume p₂ TokenType.IDENTIFIER "Expect parameter name." with
                  | (Except.error e, q) => (Except.error e, q)
                  | (Except.ok prm, q) => pParamsLoop fuel [prm] q
                else (Except.ok [], p₂)
              match paramsRes with
              | (Except.error e, p₃) => (Except.error e, p₃)
              | (Except.ok params, p₃) =>
                  match pConsume p₃ TokenType.RIGHT_PAREN "Expect ')' after parameters." with
                  | (Except.error e, p₄) => (Except.error e, p₄)
                  | (Except.ok _, p₄) =>
                      match pConsume p₄ TokenType.LEFT_BRACE ("Expect '\x7b' before " ++ kind ++ " body.") with
                      | (Except.error e, p₅) => (Except.error e, p₅)
                      | (Except.ok _, p₅) =>
                          match pBlock fuel p₅ with
                          | (Except.error e, p₆) => (Except.error e, p₆)
                          | (Except.ok body, p₆) =>
                              (Except.ok (Stmt.function name params body), p₆)

/-- The `while self.match(COMMA)` parameter loop of `Parser.function`; the
255-parameter check records an error without raising. -/
def pParamsLoop : Nat → List Token → PSt → Except Unit (List Token) × PSt
  | 0, _, p => (Except.error (), p)
  | fuel + 1, acc, p =>
      let (m, p₁) := pMatch p [TokenType.COMMA]
      if m then
        let p₂ :=
          if 255 ≤ acc.length then
            pError p₁ (pPeek p₁) "Can't have more than 255 parameters."
          else p₁
        match pConsume p₂ TokenType.IDENTIFIER "Expect parameter name." with
        | (Except.error e, p₃) => (Except.error e, p₃)
        | (Except.ok prm, p₃) => pParamsLoop fuel (acc ++ [prm]) p₃
      else (Except.ok acc, p₁)

/-- `Parser.block`: declarations until `}` (dropping `None` results, as
`Parser.parse` and `Parser.block` both do), then consume the brace. -/
def pBlock : Nat → PSt → Except Unit (List Stmt) × PSt
  | 0, p => (Except.error (), p)
  | fuel + 1, p =>
      match pBlockLoop fuel [] p with
      | (Except.error e, p₁) => (Except.error e, p₁)
      | (Except.ok stmts, p₁) =>
          match pConsume p₁ TokenType.RIGHT_BRACE "Expect '\x7d' after block." with
          | (Except.error e, p₂) => (Except.error e, p₂)
          | (Except.ok _, p₂) => (Except.ok stmts, p₂)

def pBlockLoop : Nat → List Stmt → PSt → Except Unit (List Stmt) × PSt
  | 0, _, p => (Except.error (), p)
  | fuel + 1, acc, p =>
      if !pCheck p TokenType.RIGHT_BRACE && !pIsAtEnd p then
        match pDeclaration fuel p with
        | (some st, p₁) => pBlockLoop fuel (acc ++ [st]) p₁
        | (none, p₁) => pBlockLoop fuel acc p₁
      else (Except.ok acc, p)

end

/-- The `while not self.is_at_end()` loop of `Parser.parse`. -/
def pParseLoop : Nat → List Stmt → PSt → List Stmt × PSt
  | 0, acc, p => (acc, p)
  | fuel + 1, acc, p =>
      if pIsAtEnd p then (acc, p)
      else
        match pDeclaration fuel p with
        | (some st, p₁) => pParseLoop fuel (acc ++ [st]) p₁
        | (none, p₁) => pParseLoop fuel acc p₁

/-- `Parser.parse` on a scanner token list.  The fuel covers the loop and
the recursive descent: the grammar cascade spends a bounded number of units
per token, so a generous linear bound restores the Python behaviour on every
input small enough to appear in a theorem below. -/
def parseTokens (tokens : List Token) : List Stmt × PSt :=
  let p : PSt := { tokens := tokens, current := 0, errors := [], nextId := 0 }
  pParseLoop (64 * (tokens.length + 1)) [] p

/-! ## Driver (`src/plox/plox/lox.py`, `Interpreter.interpret`) -/

/-- What one `Lox.run`/`run_file` leaves behind: the `had_error` sources
(scan, parse and resolve diagnostics), the `LoxRuntimeError` caught by
`Interpreter.interpret` (which sets `had_runtime_error`), any exception that
nothing catches (the Python process would die with a traceback), and the
lines printed to standard output. -/
structure RunResult where
  scanErrors : List (Nat × String)
  parseErrors : List (Nat × String × String)
  resolveErrors : List (Nat × String × String)
  runtimeError : Option Exc
  uncaught : Option Exc
  output : List String
deriving Repr

/-- `had_error` after `Lox.run`: any scanner, parser or resolver report. -/
def RunResult.hadError (r : RunResult) : Bool :=
  !r.scanErrors.isEmpty || !r.parseErrors.isEmpty || !r.resolveErrors.isEmpty

/-- `had_runtime_error` after `Lox.run`. -/
def RunResult.hadRuntimeError (r : RunResult) : Bool := r.runtimeError.isSome

/-- `Interpreter.interpret`: run the statements in order; `except
LoxRuntimeError` reports it and sets `had_runtime_error`; any other
exception — `FakeReturnError` at top level, a plain `RuntimeError`,
`NameError`, `TypeError`, or the fuel artefact — escapes. -/
def interpret (fuel : Nat) (stmts : List Stmt) (s : St) :
    (Option Exc × Option Exc) × St :=
  match execStmts fuel stmts s with
  | (Except.ok _, s₁) => ((none, none), s₁)
  | (Except.error ex, s₁) =>
      match ex with
      | Exc.loxRuntime tok msg => ((some (Exc.loxRuntime tok msg), none), s₁)
      | other => ((none, some other), s₁)

/-- `Lox.run`: scan, parse, stop when `had_error`; resolve every statement
(populating the module-global interpreter's side table), stop when
`had_error`; interpret. -/
def runSource (fuel : Nat) (source : String) : RunResult :=
  let sc := scanTokens source
  let (stmts, pst) := parseTokens sc.tokens
  if !sc.errors.isEmpty || !pst.errors.isEmpty then
    { scanErrors := sc.errors, parseErrors := pst.errors, resolveErrors := [],
      runtimeError := none, uncaught := none, output := [] }
  else
    let r := resolveStmtList fuel stmts initRSt
    if !r.errors.isEmpty then
      { scanErrors := sc.errors, parseErrors := pst.errors,
        resolveErrors := r.errors, runtimeError := none, uncaught := none,
        output := [] }
    else
      let s₀ : St := { initSt with locals := r.locals }
      let ((caught, esc), s₁) := interpret fuel stmts s₀
      { scanErrors := sc.errors, parseErrors := pst.errors,
        resolveErrors := r.errors, runtimeError := caught, uncaught := esc,
        output := s₁.output }

/-- How the process ends in `Lox.run_file`: `sys.exit(65)` when `had_error`,
`sys.exit(70)` when `had_runtime_error`, a normal exit 0 otherwise — unless
an exception escaped `run`, in which case Python dies with a traceback (exit
code 1, not any of the above). -/
inductive RunOutcome where
  | exited (code : Nat)
  | crashed (ex : Exc)
deriving Repr

/-- `Lox.run_file` on already-read source text. -/
def runFile (fuel : Nat) (source : String) : RunOutcome :=
  let r := runSource fuel source
  match r.uncaught with
  | some ex => RunOutcome.crashed ex
  | none =>
      if r.hadError then RunOutcome.exited 65
      else if r.hadRuntimeError then RunOutcome.exited 70
      else RunOutcome.exited 0

/-! ## Fixtures for the concrete theorems below -/

/-- A token for the identifier `x` on line 1, as the scanner produces it. -/
def xTok : Token := ⟨TokenType.IDENTIFIER, "x", none, 1⟩

/-- A state whose instance heap holds one instance of a methodless class
`Foo` (what `LoxClass.call` would allocate for `Foo()`). -/
def fooInstSt : St := { initSt with insts := [⟨LoxClass.mk "Foo" none [], []⟩] }

/-- What each callable's `arity()` method RETURNS when actually called:
`Clock.arity` is 0, `LoxFunction.arity` the declared parameter count,
`LoxClass.arity` its `init`'s arity or 0.  (`Call.evaluate` never calls it —
it compares against the bound-method object, see `intNeqArityMethod`.) -/
def callableArity (v : Value) : Nat :=
  match v with
  | .clock => 0
  | .func f => f.params.length
  | .cls c =>
      match c.findMethod "init" with
      | some i => i.params.length
      | none => 0
  | _ => 0

/-! ## Theorems -/

/-- `envDefine` never moves the current-environment pointer. -/
theorem envDefine_env (s : St) (e : EnvId) (n : String) (v : Value) :
    (envDefine s e n v).environment = s.environment := rfl

/-- Binding parameters never moves the current-environment pointer. -/
theorem defineParams_env (ps : List (Token × Value)) (e : EnvId) (s : St) :
    (defineParams ps e s).environment = s.environment := by
  induction ps generalizing s with
  | nil => rfl
  | cons p rest ih =>
      simp only [defineParams, List.foldl_cons] at *
      rw [ih (envDefine s e p.1.lexeme p.2)]
      rfl

/-- `execute_block` hands back the caller's environment pointer whatever the
statements did and however they exited (the `finally`). -/
theorem executeBlock_env (fuel : Nat) (stmts : List Stmt) (env : EnvId) (s : St) :
    ((executeBlock fuel stmts env s).2).environment = s.environment := by
  cases fuel with
  | zero => rfl
  | succ f =>
      rcases h : execStmts f stmts { s with environment := env } with ⟨r, s₁⟩
      simp [executeBlock, h]

/-- `executeBlock_env`, phrased on an equation. -/
theorem executeBlock_env_eq (fuel : Nat) (stmts : List Stmt) (env : EnvId)
    (s0 : St) (r : Except Exc Unit) (s3 : St)
    (h : executeBlock fuel stmts env s0 = (r, s3)) :
    s3.environment = s0.environment := by
  have h2 := executeBlock_env fuel stmts env s0
  rw [h] at h2
  exact h2

/-- `LoxFunction.call` also restores the caller's environment pointer on
every exit (it delegates the swap to `execute_block`). -/
theorem functionCall_env (fuel : Nat) (f : FunData) (args : List Value) (s : St) :
    ((functionCall fuel f args s).2).environment = s.environment := by
  cases fuel with
  | zero => rfl
  | succ fl =>
      simp only [functionCall]
      split
      · rename_i v s3 heq
        have h3 : s3.environment = s.environment := by
          have h4 := executeBlock_env_eq _ _ _ _ _ _ heq
          rw [defineParams_env] at h4
          exact h4
        split <;> exact h3
      · rename_i ex s3 hne heq
        have h4 := executeBlock_env_eq _ _ _ _ _ _ heq
        rw [defineParams_env] at h4
        exact h4
      · rename_i u s3 heq
        have h3 : s3.environment = s.environment := by
          have h4 := executeBlock_env_eq _ _ _ _ _ _ heq
          rw [defineParams_env] at h4
          exact h4
        split <;> exact h3

/-- C1: the claim says a call whose argument count equals the callee's arity
raises no arity error and is invoked.  In the code `Call.evaluate` compares
`len(arguments) != function.arity` where `arity` is a method, not a
property, so the comparison is int-vs-bound-method and always `True`: even
`clock()` — 0 arguments against `Clock.arity() = 0` — raises the
`LoxRuntimeError` whose "expected" slot prints the bound method itself, and
the program exits 70. -/
theorem call_equal_arity_still_raises :
    callableArity Value.clock = 0 ∧
    (runSource 1000 "clock();").runtimeError =
      some (Exc.loxRuntime (some ⟨TokenType.RIGHT_PAREN, ")", none, 1⟩)
        "Expected <bound method Clock.arity of <native fn>> arguments, but got 0.") ∧
    runFile 1000 "clock();" = RunOutcome.exited 70 := by
  exact ⟨rfl, rfl, rfl⟩

/-- C2: the claim says the first scope containing the name at reversed index
`d` yields recorded depth `d`.  `resolve_local` enumerates
`reversed(self.scopes)` — so `distance` already counts from the innermost
scope — but still records `len(scopes) - 1 - distance`: a name found in the
innermost of two scopes (reversed index 0, per `findScopeDepth`) is recorded
at depth 1.  End to end, `{ var a = true; { print a; } }` reads `a` through
`get_at` at the wrong depth and prints `nil` instead of `true`. -/
theorem resolve_local_reverses_depth :
    findScopeDepth [[("x", true)], []] "x" = some 0 ∧
    (resolveLocal { initRSt with scopes := [[("x", true)], []] } 7 xTok).locals
      = [(7, 1)] ∧
    (runSource 1000 "{ var a = true; { print a; } }").output = ["nil"] := by
  exact ⟨rfl, rfl, rfl⟩

/-- C3: the claim says `or` returns the left value and skips the right
operand only when the left VALUE is truthy, `and` when it is falsy.
`Logical.evaluate` calls `is_truthy(self.left)` on the AST node, which is
always truthy, so `or` always answers its left value (`false or true`
prints `false`) and `and` always evaluates and answers its right operand
(`false and true` prints `true`). -/
theorem logical_short_circuit_bug :
    (runSource 1000 "print false or true;").output = ["false"] ∧
    (runSource 1000 "print false and true;").output = ["true"] := by
  exact ⟨rfl, rfl⟩

/-- C4: the claim says an assignment with a resolver depth writes through
`assign_at` at that depth.  `Assign.evaluate` looks the depth up with
`interpreter.locals.get(self.value)` — keyed by the assigned sub-expression
instead of the Assign node the resolver keyed — so the depth is never found
and every local assignment falls through to `globals.assign`:
`{ var x = true; x = false; }` dies with `Undefined variable: x.` and exit
code 70. -/
theorem assign_side_table_keyed_by_value :
    (runSource 1000 "{ var x = true; x = false; }").runtimeError =
      some (Exc.loxRuntime (some xTok) "Undefined variable: x.") ∧
    runFile 1000 "{ var x = true; x = false; }" = RunOutcome.exited 70 := by
  exact ⟨rfl, rfl⟩

/-- C5 (counterexample): the claim says `var x;` is accepted by the parser.
`Parser.var_declaration` raises `"Expect variable expression."` when the
initializer is missing, so `var x;` parses to no statement and records that
error at end of input. -/
theorem var_without_initializer_rejected :
    (parseTokens (scanTokens "var x;").tokens).1 = [] ∧
    (parseTokens (scanTokens "var x;").tokens).2.errors =
      [(1, " at end ", "Expect variable expression.")] := by
  exact ⟨rfl, rfl⟩

/-- C5 (amended): a var declaration without an initializer is REJECTED by
the parser with "Expect variable expression."; the statement evaluator's
no-initializer branch (now unreachable from the parser) defines the name as
`Nil`, and only a declaration with an initializer evaluates that
initializer first, defining the name to its value. -/
theorem var_declaration_amended (fuel : Nat) (name : Token) (e : Expr)
    (s s₁ : St) (v : Value) (h : evalExpr fuel e s = (Except.ok v, s₁)) :
    (parseTokens (scanTokens "var x;").tokens).2.errors =
      [(1, " at end ", "Expect variable expression.")] ∧
    execStmt (fuel + 1) (Stmt.var name none) s =
      (Except.ok (), envDefine s s.environment name.lexeme Value.nil) ∧
    execStmt (fuel + 1) (Stmt.var name (some e)) s =
      (Except.ok (), envDefine s₁ s₁.environment name.lexeme v) := by
  refine ⟨rfl, rfl, ?_⟩
  simp [execStmt, h]

theorem var_declaration_amended_witness :
    (parseTokens (scanTokens "var x;").tokens).2.errors =
      [(1, " at end ", "Expect variable expression.")] ∧
    execStmt 2 (Stmt.var xTok none) initSt =
      (Except.ok (), envDefine initSt initSt.environment xTok.lexeme Value.nil) ∧
    execStmt 2 (Stmt.var xTok (some (Expr.literal 0 (LitVal.bool true)))) initSt =
      (Except.ok (),
        envDefine initSt initSt.environment xTok.lexeme (Value.bool true)) :=
  var_declaration_amended 1 xTok (Expr.literal 0 (LitVal.bool true)) initSt
    initSt (Value.bool true) rfl

/-- C6: the claim says `123.foo;` raises a Lox runtime error "Only instances
have properties.", caught by the interpreter (exit 70).  `Get.evaluate`
reaches `isinstance(_object, LoxInstance)` with `LoxInstance` imported only
under `TYPE_CHECKING`, so the program dies with an uncaught `NameError`
instead: `had_runtime_error` is never set and the exit code cannot be 70. -/
theorem get_on_non_instance_raises_namerror :
    runFile 1000 "123.foo;" =
      RunOutcome.crashed (Exc.pyExc "NameError"
        "name 'LoxInstance' is not defined") ∧
    (runSource 1000 "123.foo;").hadRuntimeError = false := by
  exact ⟨rfl, rfl⟩

/-- C7: the claim says a Set expression checks the object is an instance
(raising "Only instances have fields." otherwise), evaluates the value,
writes it into THAT OBJECT's fields and returns it.  `Set.evaluate` hits the
same unbound `LoxInstance` name as `Get.evaluate` before any of that can
happen, so every Set expression — here on a boolean object — dies with an
uncaught `NameError` after evaluating only the object.  (Past that dead
check the code would also write through `value.set(...)`, the assigned
value, not the object.) -/
theorem set_on_any_object_raises_namerror :
    runFile 1000 "var o = true; o.x = false;" =
      RunOutcome.crashed (Exc.pyExc "NameError"
        "name 'LoxInstance' is not defined") ∧
    (runSource 1000 "var o = true; o.x = false;").output = [] := by
  exact ⟨rfl, rfl⟩

/-- C8 (counterexample): the claim says an instance stringifies as exactly
the class name followed by " instance".  `LoxInstance.__repr__` is
`f"(instance {self._class.name})"`, so an instance of `Foo` stringifies as
`"(instance Foo)"`, not `"Foo instance"`. -/
theorem instance_stringify_counterexample :
    stringify fooInstSt (Value.inst 0) = "(instance Foo)" ∧
    stringify fooInstSt (Value.inst 0) ≠ "Foo instance" := by
  refine ⟨rfl, ?_⟩
  decide

/-- C8 (amended): stringifying an instance yields `"(instance "`, the class
name, and `")"` — the `LoxInstance.__repr__` format. -/
theorem instance_stringify_amended (s : St) (i : InstId) :
    stringify s (Value.inst i) =
      "(instance " ++ (instOf s i).klass.name ++ ")" := rfl

/-- C9: the claim says the scanner consumes `/* ... */` block comments so a
source holding only a block comment scans to just `EOF`.  Neither scanner
file has a block-comment case: `/` only pairs with a second `/`, so
`"/* x */"` scans to `SLASH STAR IDENTIFIER STAR SLASH EOF`, and the
repository's own block-comment test source leaves `had_error` set (a parse
error) instead of running cleanly. -/
theorem scanner_has_no_block_comments :
    (scanTokens "/* x */").tokens.map Token.type =
      [TokenType.SLASH, TokenType.STAR, TokenType.IDENTIFIER,
       TokenType.STAR, TokenType.SLASH, TokenType.EOF] ∧
    (runSource 1000 "/*\nThis is a multiline block comment\n*/\n").hadError
      = true := by
  exact ⟨rfl, rfl⟩

/-- C10: block execution and function calls restore the interpreter's
previous current-environment pointer on every exit path — normal
completion, return-unwind and runtime error are all covered because the
equation holds for every fuel, statement list, callee and starting state,
whatever outcome the run produced. -/
theorem environment_restored_on_every_exit (fuel : Nat) (stmts : List Stmt)
    (env : EnvId) (s : St) (f : FunData) (args : List Value) :
    ((executeBlock fuel stmts env s).2).environment = s.environment ∧
    ((functionCall fuel f args s).2).environment = s.environment :=
  ⟨executeBlock_env fuel stmts env s, functionCall_env fuel f args s⟩
